import Mathlib

/-!
# prom-http-simulator: the activity simulator

A shallow embedding of `activity-simulator.go` (package `prom_http_simulator`)
and the properties of its configuration accessors, spike-mode state machine,
jitter function and per-request samplers.

Modelling conventions

* Go `int` is the 64-bit signed integer: a value is an `Int` of
  `[-2^63, 2^63)`, and the result of every `+`, `-` and `*` of the source is
  wrapped around by `int64`.  Go's `/` on integers truncates toward zero,
  which is `Int.tdiv` (a division by 50 or 100 cannot overflow).
* `float64(latency)` is `float64`: the value, an integer, of the IEEE-754
  double nearest to the `int` (ties to even).
* `*rand.Rand` is an explicit state `Rng`: an infinite sequence of raw draws and
  a cursor.  `Intn n` panics for `n <= 0` (as `math/rand` documents) and
  otherwise returns a value of `[0, n)` and advances the cursor.
* A Go panic is the `Except.error` branch of `Except Panic`.
* Methods on `*Simulator` take the simulator state and return the new one.
  The mutex has no sequential content and is left out.
* The two Prometheus collectors are modelled by the list of recording calls
  made on them, in program order, by a tick that completes; the `.error`
  result of a tick that panics does not carry the calls made before the panic.
-/

namespace PromHttpSimulator

/-! ## Data model -/

/-- The largest Go `int`, `2^63 - 1`. -/
def maxInt64 : Int := 9223372036854775807

/-- The smallest Go `int`, `-2^63`. -/
def minInt64 : Int := -9223372036854775808

/-- Wrap-around of Go's `int` arithmetic: the representative in
`[-2^63, 2^63)` of an exact result modulo `2^64`. -/
def int64 (x : Int) : Int :=
  (x + 9223372036854775808) % 18446744073709551616 - 9223372036854775808

/-- The number of low bits that the conversion of a magnitude `a <= 2^64` to a
double drops: 0 below `2^53`, and one more for each further power of two
reached. -/
def float64.shift (a : Nat) : Nat :=
  ((List.range 11).filter (fun e => 2 ^ (53 + e) ≤ a)).length

/-- Go's conversion `float64(x)` of an `int`: the value of the nearest double,
which is an integer.  Below `2^53` in magnitude the conversion is exact; above,
the magnitude keeps 53 significant bits, rounded to nearest, ties to even. -/
def float64 (x : Int) : Int :=
  let a := x.natAbs
  if a < 2 ^ 53 then x
  else
    let e := float64.shift a
    let q := a / 2 ^ e
    let rem := a % 2 ^ e
    let q := if 2 ^ (e - 1) < rem ∨ (rem = 2 ^ (e - 1) ∧ q % 2 = 1) then q + 1 else q
    Int.sign x * ((q * 2 ^ e : Nat) : Int)

/-- `type SpikeMode int`: any Go `int` is a value of the type. -/
abbrev SpikeMode := Int

/-- `OFF SpikeMode = iota` -/
def OFF : SpikeMode := 0

/-- `ON`, the second constant of the `iota` block. -/
def ON : SpikeMode := 1

/-- `RANDOM`, the third constant of the `iota` block. -/
def RANDOM : SpikeMode := 2

/-- `type SimulatorOpts struct` -/
structure SimulatorOpts where
  Endpoints : List String
  RequestRate : Int
  RequestRateUncertainty : Int
  LatencyMin : Int
  LatencyP50 : Int
  LatencyP90 : Int
  LatencyP99 : Int
  LatencyMax : Int
  LatencyUncertainty : Int
  ErrorRate : Int
  SpikeModeStatus : SpikeMode
  SpikeStartChance : Int
  SpikeEndChance : Int
  deriving DecidableEq, Repr

/-- Run-time failures of the Go code that the embedding tracks. -/
inductive Panic where
  /-- `rand.Intn` called with an argument `<= 0`. -/
  | invalidArgumentToIntn
  /-- Slice index out of range. -/
  | indexOutOfRange
  deriving DecidableEq, Repr

/-- State of a `*rand.Rand`: the raw draws still to come are
`raw pos, raw (pos+1), ...`. -/
structure Rng where
  raw : Nat → Nat
  pos : Nat

/-- `(*rand.Rand).Intn(n)`: panics if `n <= 0`, else yields a value in `[0, n)`
and advances the generator. -/
def Rng.Intn (r : Rng) (n : Int) : Except Panic (Int × Rng) :=
  if n ≤ 0 then .error .invalidArgumentToIntn
  else .ok ((r.raw r.pos : Int) % n, { r with pos := r.pos + 1 })

/-- `type Simulator struct` (without the mutex). -/
structure Simulator where
  opts : SimulatorOpts
  rng : Rng
  spikeMode : Bool

/-- One recording call on a Prometheus collector. -/
inductive Metric where
  /-- `httpRequestsTotal.WithLabelValues(endpoint, status).Inc()` -/
  | httpRequestsTotal (endpoint status : String)
  /-- `httpRequestDurationMs.WithLabelValues(endpoint, status).Observe(v)`; `v` is
  the value of the observed double, here always an integer. -/
  | httpRequestDurationMs (endpoint status : String) (v : Int)
  deriving DecidableEq, Repr

/-! ## Configuration accessors -/

/-- `func NewSimulator(opts SimulatorOpts) *Simulator`; the time-seeded random
source is a parameter. -/
def NewSimulator (opts : SimulatorOpts) (rng : Rng) : Simulator :=
  { opts := opts, rng := rng, spikeMode := false }

/-- `func (s *Simulator) UpdateOpts(opts SimulatorOpts)` -/
def UpdateOpts (s : Simulator) (opts : SimulatorOpts) : Simulator :=
  { s with opts := opts }

/-- `func (s *Simulator) SetSpikeMode(mode string)` -/
def SetSpikeMode (s : Simulator) (mode : String) : Simulator :=
  if mode = "on" then
    { s with opts := { s.opts with SpikeModeStatus := ON } }
  else if mode = "off" then
    { s with opts := { s.opts with SpikeModeStatus := OFF } }
  else if mode = "random" then
    { s with opts := { s.opts with SpikeModeStatus := RANDOM } }
  else
    s

/-- `func (s *Simulator) SetErrorRate(rate int)` -/
def SetErrorRate (s : Simulator) (rate : Int) : Simulator :=
  let rate := if rate > 100 then 100 else rate
  let rate := if rate < 0 then 0 else rate
  { s with opts := { s.opts with ErrorRate := rate } }

/-- `func (s *Simulator) GetOpts() SimulatorOpts` -/
def GetOpts (s : Simulator) : SimulatorOpts :=
  s.opts

/-! ## Sampling steps -/

/-- `func (s *Simulator) giveSpikeMode() bool` -/
def giveSpikeMode (s : Simulator) : Except Panic (Bool × Simulator) :=
  if s.opts.SpikeModeStatus = ON then
    .ok (true, { s with spikeMode := true })
  else if s.opts.SpikeModeStatus = OFF then
    .ok (false, { s with spikeMode := false })
  else if s.opts.SpikeModeStatus = RANDOM then
    match s.rng.Intn 100 with
    | .error e => .error e
    | .ok (n, rng) =>
      let s := { s with rng := rng }
      if s.spikeMode = false ∧ n < s.opts.SpikeStartChance then
        .ok (true, { s with spikeMode := true })
      else if s.spikeMode = true ∧ n < s.opts.SpikeEndChance then
        .ok (false, { s with spikeMode := false })
      else
        .ok (s.spikeMode, s)
  else
    .ok (s.spikeMode, s)

/-- `func (s *Simulator) giveWithUncertainty(n int, u int) int` -/
def giveWithUncertainty (s : Simulator) (n u : Int) : Except Panic (Int × Simulator) :=
  match s.rng.Intn ((int64 (n * u)).tdiv 50) with
  | .error e => .error e
  | .ok (d, rng) =>
    let delta := int64 (d - (int64 (n * u)).tdiv 100)
    .ok (int64 (n + delta), { s with rng := rng })

/-- `func (s *Simulator) giveStatusCode() string` -/
def giveStatusCode (s : Simulator) : Except Panic (String × Simulator) :=
  match s.rng.Intn 100 with
  | .error e => .error e
  | .ok (d, rng) =>
    if d < s.opts.ErrorRate then
      .ok ("500", { s with rng := rng })
    else
      .ok ("200", { s with rng := rng })

/-- `func (s *Simulator) giveEndpoint() string` -/
def giveEndpoint (s : Simulator) : Except Panic (String × Simulator) :=
  match s.rng.Intn (s.opts.Endpoints.length : Int) with
  | .error e => .error e
  | .ok (n, rng) =>
    match s.opts.Endpoints[n.toNat]? with
    | none => .error .indexOutOfRange
    | some endpoint => .ok (endpoint, { s with rng := rng })

/-- The shared shape of the four success branches of `giveLatency`:
`s.giveWithUncertainty(lo + s.rng.Intn(hi - lo), s.opts.LatencyUncertainty)`. -/
def giveLatency.band (s : Simulator) (lo hi : Int) : Except Panic (Int × Simulator) :=
  match s.rng.Intn (int64 (hi - lo)) with
  | .error e => .error e
  | .ok (r, rng) =>
    giveWithUncertainty { s with rng := rng } (int64 (lo + r)) s.opts.LatencyUncertainty

/-- `func (s *Simulator) giveLatency(statusCode string) int` -/
def giveLatency (s : Simulator) (statusCode : String) : Except Panic (Int × Simulator) :=
  if statusCode ≠ "200" then
    match s.rng.Intn 50 with
    | .error e => .error e
    | .ok (d, rng) => .ok (int64 (5 + d), { s with rng := rng })
  else
    match s.rng.Intn 100 with
    | .error e => .error e
    | .ok (p, rng) =>
      let s := { s with rng := rng }
      if p < 50 then
        giveLatency.band s s.opts.LatencyMin s.opts.LatencyP50
      else if p < 90 then
        giveLatency.band s s.opts.LatencyP50 s.opts.LatencyP90
      else if p < 99 then
        giveLatency.band s s.opts.LatencyP90 s.opts.LatencyP99
      else
        giveLatency.band s s.opts.LatencyP99 s.opts.LatencyMax

/-! ## The tick -/

/-- Lines 99-102 of `simulateActivity`: the request rate of the tick before
jitter (`requestRate := s.opts.RequestRate`, multiplied by `5 + s.rng.Intn(10)`
when `s.giveSpikeMode()` answers true). -/
def simulateActivity.requestRate (s : Simulator) : Except Panic (Int × Simulator) :=
  let requestRate := s.opts.RequestRate
  match giveSpikeMode s with
  | .error e => .error e
  | .ok (spike, s) =>
    if spike then
      match s.rng.Intn 10 with
      | .error e => .error e
      | .ok (k, rng) => .ok (int64 (requestRate * int64 (5 + k)), { s with rng := rng })
    else
      .ok (requestRate, s)

/-- The latency of a request (lines 110-113): the sampled latency, doubled when
`s.spikeMode` is set. -/
def simulateActivity.latency (s : Simulator) (statusCode : String) :
    Except Panic (Int × Simulator) :=
  match giveLatency s statusCode with
  | .error e => .error e
  | .ok (latency, s) =>
    if s.spikeMode then .ok (int64 (latency * 2), s) else .ok (latency, s)

/-- One iteration of the loop of `simulateActivity` (lines 107-117): the two
recording calls it makes, the second with `float64(latency)`, and the state
afterwards.  When `giveLatency` panics the code has already made the
increment; the `.error` result does not report it. -/
def simulateActivity.request (s : Simulator) : Except Panic (List Metric × Simulator) :=
  match giveStatusCode s with
  | .error e => .error e
  | .ok (statusCode, s) =>
    match giveEndpoint s with
    | .error e => .error e
    | .ok (endpoint, s) =>
      match simulateActivity.latency s statusCode with
      | .error e => .error e
      | .ok (latency, s) =>
        .ok ([Metric.httpRequestsTotal endpoint statusCode,
              Metric.httpRequestDurationMs endpoint statusCode (float64 latency)], s)

/-- The loop `for i := 0; i < nbRequests; i++` run for `k` iterations. -/
def simulateActivity.loop : Nat → Simulator → Except Panic (List Metric × Simulator)
  | 0, s => .ok ([], s)
  | k + 1, s =>
    match simulateActivity.request s with
    | .error e => .error e
    | .ok (out, s) =>
      match simulateActivity.loop k s with
      | .error e => .error e
      | .ok (rest, s) => .ok (out ++ rest, s)

/-- `func (s *Simulator) simulateActivity()`: the recording calls of one tick
and the state afterwards. -/
def simulateActivity (s : Simulator) : Except Panic (List Metric × Simulator) :=
  match simulateActivity.requestRate s with
  | .error e => .error e
  | .ok (requestRate, s) =>
    match giveWithUncertainty s requestRate s.opts.RequestRateUncertainty with
    | .error e => .error e
    | .ok (nbRequests, s) => simulateActivity.loop nbRequests.toNat s

/-! ## Concrete inputs -/

/-- The configuration `cmd/main.go` starts the simulator with. -/
def mainOpts : SimulatorOpts :=
  { Endpoints :=
      ["/login", "/login", "/login", "/login", "/login", "/login", "/login",
       "/users", "/users", "/users",
       "/users/{id}",
       "/register", "/register",
       "/logout", "/logout", "/logout", "/logout"],
    RequestRate := 1000,
    RequestRateUncertainty := 70,
    LatencyMin := 10,
    LatencyP50 := 25,
    LatencyP90 := 150,
    LatencyP99 := 750,
    LatencyMax := 10000,
    LatencyUncertainty := 70,
    ErrorRate := 1,
    SpikeModeStatus := OFF,
    SpikeStartChance := 5,
    SpikeEndChance := 30 }

/-- A random source whose raw draws are the elements of `draws`, then zeros. -/
def Rng.ofList (draws : List Nat) : Rng :=
  { raw := fun i => draws.getD i 0, pos := 0 }

/-- The simulator `cmd/main.go` creates, over a source whose draws are `draws`. -/
def mainSimulator (draws : List Nat) : Simulator :=
  NewSimulator mainOpts (Rng.ofList draws)

/-! ## Predicates of the specification -/

/-- A percentage: an integer of `[0, 100]`. -/
def IsPercentage (x : Int) : Prop :=
  0 ≤ x ∧ x ≤ 100

instance (x : Int) : Decidable (IsPercentage x) :=
  inferInstanceAs (Decidable (0 ≤ x ∧ x ≤ 100))

/-- Every percentage field of a configuration is in `[0, 100]`. -/
def SimulatorOpts.percentagesInRange (o : SimulatorOpts) : Prop :=
  IsPercentage o.RequestRateUncertainty ∧ IsPercentage o.LatencyUncertainty ∧
  IsPercentage o.ErrorRate ∧ IsPercentage o.SpikeStartChance ∧
  IsPercentage o.SpikeEndChance

instance (o : SimulatorOpts) : Decidable o.percentagesInRange :=
  inferInstanceAs (Decidable (_ ∧ _ ∧ _ ∧ _ ∧ _))

/-- The spike decision as section 4.2 of the specification words it: mode `OFF`
forces inactive, mode `ON` forces active, and mode `RANDOM` activates when
inactive and `n < spikeStartChance`, deactivates when active and
`n < spikeEndChance`, and otherwise keeps the previous value.  (Written from the
specification, to be compared with `giveSpikeMode`; `mode` is one of the three.) -/
def spikeDecisionSpec (mode : SpikeMode) (spikeActive : Bool)
    (n spikeStartChance spikeEndChance : Int) : Bool :=
  if mode = OFF then false
  else if mode = ON then true
  else if spikeActive = false ∧ n < spikeStartChance then true
  else if spikeActive = true ∧ n < spikeEndChance then false
  else spikeActive

/-- The latency band `[lo, hi)` that section 4.5 of the specification assigns
to a draw `p`: `[latencyMin, latencyP50)` for `p < 50`, `[latencyP50, latencyP90)`
for `50 <= p < 90`, `[latencyP90, latencyP99)` for `90 <= p < 99` and
`[latencyP99, latencyMax)` for `p >= 99`.  (Written from the specification, to
be compared with `giveLatency`.) -/
def latencyBandSpec (o : SimulatorOpts) (p : Int) : Int × Int :=
  if p < 50 then (o.LatencyMin, o.LatencyP50)
  else if p < 90 then (o.LatencyP50, o.LatencyP90)
  else if p < 99 then (o.LatencyP90, o.LatencyP99)
  else (o.LatencyP99, o.LatencyMax)

/-- The data model of section 3 of the specification: a non-empty endpoint
sequence, a request rate `>= 0`, every percentage field in `[0, 100]`,
non-decreasing latency milestones and one of the three spike modes. -/
def SimulatorOpts.satisfiesDataModel (o : SimulatorOpts) : Prop :=
  o.Endpoints ≠ [] ∧ 0 ≤ o.RequestRate ∧ o.percentagesInRange ∧
  (o.LatencyMin ≤ o.LatencyP50 ∧ o.LatencyP50 ≤ o.LatencyP90 ∧
   o.LatencyP90 ≤ o.LatencyP99 ∧ o.LatencyP99 ≤ o.LatencyMax) ∧
  (o.SpikeModeStatus = OFF ∨ o.SpikeModeStatus = ON ∨ o.SpikeModeStatus = RANDOM)

instance (o : SimulatorOpts) : Decidable o.satisfiesDataModel :=
  inferInstanceAs (Decidable (_ ∧ _ ∧ _ ∧ _ ∧ _))

/-- The configuration of the end-to-end scenario of section 8 of the
specification; the two spike chances, which the scenario leaves open, are
parameters. -/
def endToEndOpts (spikeStartChance spikeEndChance : Int) : SimulatorOpts :=
  { Endpoints := ["/a"],
    RequestRate := 10,
    RequestRateUncertainty := 0,
    LatencyMin := 10,
    LatencyP50 := 20,
    LatencyP90 := 30,
    LatencyP99 := 40,
    LatencyMax := 50,
    LatencyUncertainty := 0,
    ErrorRate := 0,
    SpikeModeStatus := OFF,
    SpikeStartChance := spikeStartChance,
    SpikeEndChance := spikeEndChance }

/-- The recording calls of a sequence of synthetic requests
`(endpoint, status, latency)`: for each request one counter increment followed
by one histogram observation under the same labels. -/
def Metric.ofRequests : List (String × String × Int) → List Metric
  | [] => []
  | (endpoint, status, latency) :: rest =>
    Metric.httpRequestsTotal endpoint status ::
      Metric.httpRequestDurationMs endpoint status latency :: Metric.ofRequests rest

/-- Is the call an increment of the counter `http_requests_total`? -/
def Metric.isIncrement : Metric → Bool
  | .httpRequestsTotal _ _ => true
  | .httpRequestDurationMs _ _ _ => false

/-- Is the call an observation of the histogram
`http_request_duration_milliseconds`? -/
def Metric.isObservation : Metric → Bool
  | .httpRequestsTotal _ _ => false
  | .httpRequestDurationMs _ _ _ => true

/-! ## Machine integers -/

/-- An exact result within the range of `int` is not changed by the wrap-around. -/
theorem int64_of_range {x : Int} (h1 : minInt64 ≤ x) (h2 : x ≤ maxInt64) : int64 x = x := by
  unfold int64
  unfold minInt64 at h1
  unfold maxInt64 at h2
  omega

/-- The wrap-around always lands in the range of `int`. -/
theorem int64_range (x : Int) : minInt64 ≤ int64 x ∧ int64 x ≤ maxInt64 := by
  unfold int64 minInt64 maxInt64
  omega

/-- Below `2^53` in magnitude the conversion to a double is exact. -/
theorem float64_of_small {x : Int} (h1 : -9007199254740992 < x) (h2 : x < 9007199254740992) :
    float64 x = x := by
  have h : x.natAbs < 2 ^ 53 := by
    norm_num
    omega
  simp only [float64, h, if_true]

/-! ## The random source -/

theorem Rng.Intn_of_pos (r : Rng) {n : Int} (hn : 0 < n) :
    r.Intn n = .ok ((r.raw r.pos : Int) % n, { r with pos := r.pos + 1 }) := by
  simp [Rng.Intn, not_le.mpr hn]

theorem Rng.Intn_of_nonpos (r : Rng) {n : Int} (hn : n ≤ 0) :
    r.Intn n = .error .invalidArgumentToIntn := by
  simp [Rng.Intn, hn]

/-- A successful `Intn n` had `n > 0`, returned a value of `[0, n)` and moved
the cursor by one. -/
theorem Rng.Intn_ok {r r1 : Rng} {n d : Int} (h : r.Intn n = .ok (d, r1)) :
    0 < n ∧ 0 ≤ d ∧ d < n ∧ r1 = { r with pos := r.pos + 1 } := by
  unfold Rng.Intn at h
  split at h
  · cases h
  · rename_i hn
    have hn : 0 < n := not_le.mp hn
    injection h with h
    injection h with hd hr
    subst hd hr
    exact ⟨hn, Int.emod_nonneg _ (ne_of_gt hn), Int.emod_lt_of_pos _ hn, rfl⟩

/-- Every value of `[0, n)` is the outcome of `Intn n` on some source: the one
whose next raw draw is that value. -/
theorem Rng.Intn_complete (r : Rng) {n d : Int} (h0 : 0 ≤ d) (hd : d < n) :
    ({ raw := fun _ => d.toNat, pos := r.pos } : Rng).Intn n
      = .ok (d, { raw := fun _ => d.toNat, pos := r.pos + 1 }) := by
  rw [Rng.Intn_of_pos _ (lt_of_le_of_lt h0 hd)]
  simp only [Int.toNat_of_nonneg h0, Int.emod_eq_of_lt h0 hd]

/-! ## Configuration accessors: theorems -/

/-- C1: for every state and every integer `rate`, the `ErrorRate` stored by
`SetErrorRate` is 0 when `rate < 0`, 100 when `rate > 100` and `rate` otherwise;
so it is always in `[0, 100]`. -/
theorem SetErrorRate_clamps (s : Simulator) (rate : Int) :
    (GetOpts (SetErrorRate s rate)).ErrorRate
        = (if rate < 0 then 0 else if rate > 100 then 100 else rate) ∧
    IsPercentage (GetOpts (SetErrorRate s rate)).ErrorRate := by
  simp only [SetErrorRate, GetOpts, IsPercentage]
  split_ifs <;> omega

/-- C2, as stated, fails: `UpdateOpts` stores an `ErrorRate` of 150 as it is,
and a later `SetErrorRate` leaves an out-of-range `LatencyUncertainty` where it
was. -/
theorem setters_do_not_clamp_every_percentage :
    ¬ (GetOpts (UpdateOpts (mainSimulator []) { mainOpts with ErrorRate := 150 })).percentagesInRange ∧
    ¬ (GetOpts (SetErrorRate
          (UpdateOpts (mainSimulator []) { mainOpts with LatencyUncertainty := -3 }) 50)).percentagesInRange ∧
    ¬ (GetOpts (SetSpikeMode
          (UpdateOpts (mainSimulator []) { mainOpts with SpikeEndChance := 101 }) "on")).percentagesInRange := by
  decide

/-- C2, amended: from a state whose configuration has every percentage field in
`[0, 100]`, `SetSpikeMode` with any string and `SetErrorRate` with any integer
store a configuration with every percentage field in `[0, 100]`; `UpdateOpts`
stores the configuration it is given unchanged, so afterwards the percentage
fields are in range exactly when those of the given configuration are. -/
theorem setters_preserve_percentages (s : Simulator) (h : (GetOpts s).percentagesInRange)
    (mode : String) (rate : Int) (c : SimulatorOpts) :
    (GetOpts (SetSpikeMode s mode)).percentagesInRange ∧
    (GetOpts (SetErrorRate s rate)).percentagesInRange ∧
    GetOpts (UpdateOpts s c) = c ∧
    ((GetOpts (UpdateOpts s c)).percentagesInRange ↔ c.percentagesInRange) := by
  obtain ⟨h1, h2, h3, h4, h5⟩ := h
  refine ⟨?_, ?_, rfl, Iff.rfl⟩
  · unfold SetSpikeMode
    split_ifs <;> exact ⟨h1, h2, h3, h4, h5⟩
  · refine ⟨h1, h2, ?_, h4, h5⟩
    simp only [SetErrorRate, GetOpts, IsPercentage]
    split_ifs <;> omega

/-- Witness of C2 (amended): the simulator of `cmd/main.go`, the string "bogus", the
rate 250 and a configuration with `ErrorRate = 150`. -/
theorem setters_preserve_percentages_witness :
    (GetOpts (mainSimulator [])).percentagesInRange ∧
    (GetOpts (SetSpikeMode (mainSimulator []) "bogus")).percentagesInRange ∧
    (GetOpts (SetErrorRate (mainSimulator []) 250)).percentagesInRange ∧
    GetOpts (UpdateOpts (mainSimulator []) { mainOpts with ErrorRate := 150 })
      = { mainOpts with ErrorRate := 150 } ∧
    ((GetOpts (UpdateOpts (mainSimulator []) { mainOpts with ErrorRate := 150 })).percentagesInRange
      ↔ SimulatorOpts.percentagesInRange { mainOpts with ErrorRate := 150 }) :=
  ⟨by decide,
   setters_preserve_percentages (mainSimulator []) (by decide) "bogus" 250
     { mainOpts with ErrorRate := 150 }⟩

/-- C3: for every state and every string other than "on", "off" and "random",
`SetSpikeMode` returns the state it was given: `SpikeModeStatus` and everything
else are unchanged.  The function is total and has no error result. -/
theorem SetSpikeMode_unrecognized (s : Simulator) (mode : String)
    (hon : mode ≠ "on") (hoff : mode ≠ "off") (hrandom : mode ≠ "random") :
    SetSpikeMode s mode = s ∧
    (GetOpts (SetSpikeMode s mode)).SpikeModeStatus = (GetOpts s).SpikeModeStatus := by
  have h : SetSpikeMode s mode = s := by
    simp [SetSpikeMode, hon, hoff, hrandom]
  exact ⟨h, by rw [h]⟩

/-- Witness of C3: the string "ON" on the simulator of `cmd/main.go`. -/
theorem SetSpikeMode_unrecognized_witness :
    ("ON" ≠ "on" ∧ "ON" ≠ "off" ∧ "ON" ≠ "random") ∧
    (SetSpikeMode (mainSimulator [3]) "ON" = mainSimulator [3] ∧
     (GetOpts (SetSpikeMode (mainSimulator [3]) "ON")).SpikeModeStatus
       = (GetOpts (mainSimulator [3])).SpikeModeStatus) :=
  ⟨by decide,
   SetSpikeMode_unrecognized (mainSimulator [3]) "ON" (by decide) (by decide) (by decide)⟩

/-- C4: for every state, `SetSpikeMode "on"` stores `ON`, `SetSpikeMode "off"`
stores `OFF` and `SetSpikeMode "random"` stores `RANDOM`; the state afterwards is
the state before with only `SpikeModeStatus` replaced, so every other
configuration field keeps its value. -/
theorem SetSpikeMode_recognized (s : Simulator) :
    ((GetOpts (SetSpikeMode s "on")).SpikeModeStatus = ON ∧
      SetSpikeMode s "on" = { s with opts := { s.opts with SpikeModeStatus := ON } }) ∧
    ((GetOpts (SetSpikeMode s "off")).SpikeModeStatus = OFF ∧
      SetSpikeMode s "off" = { s with opts := { s.opts with SpikeModeStatus := OFF } }) ∧
    ((GetOpts (SetSpikeMode s "random")).SpikeModeStatus = RANDOM ∧
      SetSpikeMode s "random" = { s with opts := { s.opts with SpikeModeStatus := RANDOM } }) := by
  refine ⟨⟨?_, ?_⟩, ⟨?_, ?_⟩, ⟨?_, ?_⟩⟩ <;> simp [SetSpikeMode, GetOpts]

/-! ## Spike-mode state machine: theorems -/

/-- C5: in each of the modes `OFF`, `ON`, `RANDOM`, for every previous value of
the flag and every outcome `n` of the draw `Intn 100` (a value of `[0, 100)`),
`giveSpikeMode` returns the decision of the specification and stores that same
value in `spikeMode`; the draw is consumed in mode `RANDOM` only, and nothing
else changes. -/
theorem giveSpikeMode_eq_spec (s : Simulator) (n : Int) (r1 : Rng)
    (hmode : s.opts.SpikeModeStatus = OFF ∨ s.opts.SpikeModeStatus = ON ∨
      s.opts.SpikeModeStatus = RANDOM)
    (hdraw : s.rng.Intn 100 = .ok (n, r1)) :
    (0 ≤ n ∧ n < 100) ∧
    giveSpikeMode s =
      .ok (spikeDecisionSpec s.opts.SpikeModeStatus s.spikeMode n
             s.opts.SpikeStartChance s.opts.SpikeEndChance,
           { s with
             rng := if s.opts.SpikeModeStatus = RANDOM then r1 else s.rng,
             spikeMode := spikeDecisionSpec s.opts.SpikeModeStatus s.spikeMode n
               s.opts.SpikeStartChance s.opts.SpikeEndChance }) := by
  obtain ⟨-, h0, h100, -⟩ := Rng.Intn_ok hdraw
  refine ⟨⟨h0, h100⟩, ?_⟩
  rcases hmode with h | h | h
  · simp [giveSpikeMode, spikeDecisionSpec, h, OFF, ON, RANDOM]
  · simp [giveSpikeMode, spikeDecisionSpec, h, OFF, ON, RANDOM]
  · simp only [giveSpikeMode, spikeDecisionSpec, h, hdraw]
    cases hs : s.spikeMode <;> by_cases h1 : n < s.opts.SpikeStartChance <;>
      by_cases h2 : n < s.opts.SpikeEndChance <;>
      simp [hs, h1, h2, OFF, ON, RANDOM]

/-- Witness of C5: mode `RANDOM`, inactive, draw 3 against `SpikeStartChance = 5`:
the step activates the spike. -/
theorem giveSpikeMode_eq_spec_witness :
    ((SetSpikeMode (mainSimulator [3]) "random").opts.SpikeModeStatus = OFF ∨
     (SetSpikeMode (mainSimulator [3]) "random").opts.SpikeModeStatus = ON ∨
     (SetSpikeMode (mainSimulator [3]) "random").opts.SpikeModeStatus = RANDOM) ∧
    (SetSpikeMode (mainSimulator [3]) "random").rng.Intn 100
      = .ok (3, { raw := (Rng.ofList [3]).raw, pos := 1 }) ∧
    giveSpikeMode (SetSpikeMode (mainSimulator [3]) "random")
      = .ok (true, { opts := { mainOpts with SpikeModeStatus := RANDOM },
                     rng := { raw := (Rng.ofList [3]).raw, pos := 1 },
                     spikeMode := true }) :=
  ⟨by decide, rfl,
   (giveSpikeMode_eq_spec (SetSpikeMode (mainSimulator [3]) "random") 3
      { raw := (Rng.ofList [3]).raw, pos := 1 } (by decide) rfl).2⟩

/-- C6: in mode `RANDOM`, whatever the draw: an inactive simulator with
`SpikeStartChance = 100` becomes active and with `SpikeStartChance = 0` stays
inactive; an active simulator with `SpikeEndChance = 100` becomes inactive and
with `SpikeEndChance = 0` stays active. -/
theorem giveSpikeMode_random_extremes (s : Simulator) :
    (∃ s1, giveSpikeMode { s with
        spikeMode := false,
        opts := { s.opts with SpikeModeStatus := RANDOM, SpikeStartChance := 100 } }
      = .ok (true, s1) ∧ s1.spikeMode = true) ∧
    (∃ s1, giveSpikeMode { s with
        spikeMode := false,
        opts := { s.opts with SpikeModeStatus := RANDOM, SpikeStartChance := 0 } }
      = .ok (false, s1) ∧ s1.spikeMode = false) ∧
    (∃ s1, giveSpikeMode { s with
        spikeMode := true,
        opts := { s.opts with SpikeModeStatus := RANDOM, SpikeEndChance := 100 } }
      = .ok (false, s1) ∧ s1.spikeMode = false) ∧
    (∃ s1, giveSpikeMode { s with
        spikeMode := true,
        opts := { s.opts with SpikeModeStatus := RANDOM, SpikeEndChance := 0 } }
      = .ok (true, s1) ∧ s1.spikeMode = true) := by
  have hlt : ((s.rng.raw s.rng.pos : Int) % 100) < 100 :=
    Int.emod_lt_of_pos _ (by norm_num)
  have hge : ¬ ((s.rng.raw s.rng.pos : Int) % 100) < 0 :=
    not_lt.mpr (Int.emod_nonneg _ (by norm_num))
  have hdraw := s.rng.Intn_of_pos (show (0 : Int) < 100 by norm_num)
  refine ⟨?_, ?_, ?_, ?_⟩ <;>
    simp [giveSpikeMode, hdraw, hlt, hge, OFF, ON, RANDOM]

/-! ## Uncertainty jitter: theorems -/

/-- An empty draw range makes the jitter function panic in `Intn`. -/
theorem giveWithUncertainty_of_empty_range (s : Simulator) {n u : Int}
    (h : (int64 (n * u)).tdiv 50 ≤ 0) :
    giveWithUncertainty s n u = .error .invalidArgumentToIntn := by
  simp [giveWithUncertainty, Rng.Intn_of_nonpos _ h]

/-- With a non-empty draw range the jitter function returns `n + d - n*u/100`,
in `int` arithmetic, for the outcome `d` of its draw. -/
theorem giveWithUncertainty_of_draw (s : Simulator) {n u d : Int} {r1 : Rng}
    (hdraw : s.rng.Intn ((int64 (n * u)).tdiv 50) = .ok (d, r1)) :
    giveWithUncertainty s n u
      = .ok (int64 (n + int64 (d - (int64 (n * u)).tdiv 100)), { s with rng := r1 }) := by
  simp [giveWithUncertainty, hdraw]

/-- The jitter function without overflow: for `n >= 0` and `u` in `[0, 100]` with
`n*u` and `n + n*u/100` within the range of `int`, and the outcome `d` of the
draw `Intn(n*u/50)`, the result is the exact `n + d - n*u/100`. -/
theorem giveWithUncertainty_exact (s : Simulator) {n u d : Int} {r1 : Rng}
    (hn : 0 ≤ n) (hu0 : 0 ≤ u) (hmul : n * u ≤ maxInt64) (hadd : n + n * u / 100 ≤ maxInt64)
    (hdraw : s.rng.Intn (n * u / 50) = .ok (d, r1)) :
    giveWithUncertainty s n u = .ok (n + d - n * u / 100, { s with rng := r1 }) := by
  have hx : 0 ≤ n * u := Int.mul_nonneg hn hu0
  obtain ⟨-, hd0, hd, -⟩ := Rng.Intn_ok hdraw
  have hw : int64 (n * u) = n * u := int64_of_range (by unfold minInt64; omega) hmul
  have h50 : (n * u).tdiv 50 = n * u / 50 := Int.tdiv_eq_ediv hx (by norm_num)
  have h100 : (n * u).tdiv 100 = n * u / 100 := Int.tdiv_eq_ediv hx (by norm_num)
  have hdraw2 : s.rng.Intn ((int64 (n * u)).tdiv 50) = .ok (d, r1) := by
    rw [hw, h50]
    exact hdraw
  rw [giveWithUncertainty_of_draw s hdraw2, hw, h100]
  have e1 : int64 (d - n * u / 100) = d - n * u / 100 := by
    apply int64_of_range
    · unfold minInt64
      unfold maxInt64 at hmul hadd
      generalize n * u = x at *
      omega
    · unfold maxInt64 at *
      generalize n * u = x at *
      omega
  have e2 : int64 (n + (d - n * u / 100)) = n + (d - n * u / 100) := by
    apply int64_of_range
    · unfold minInt64
      unfold maxInt64 at hmul hadd
      generalize n * u = x at *
      omega
    · unfold maxInt64 at *
      generalize n * u = x at *
      omega
  rw [e1, e2, Int.add_sub_assoc]

/-- C7 (the code at the failing input): with `u = 0` the draw range `n*u/50` is
empty and `giveWithUncertainty` panics in `Intn(0)` for every `n`, where the
claim has it return `n`; so does it at `n = 10`, `u = 0`. -/
theorem giveWithUncertainty_zero_uncertainty_panics (s : Simulator) (n : Int) :
    giveWithUncertainty s n 0 = .error .invalidArgumentToIntn ∧
    giveWithUncertainty s 10 0 = .error .invalidArgumentToIntn := by
  constructor <;> exact giveWithUncertainty_of_empty_range s (by simp [int64])

/-- C8, as stated, fails in `int` arithmetic.  At `n = 2^62`, `u = 4` the exact
`n*u/50` is positive, but the product `n*u = 2^64` wraps to 0 and
`giveWithUncertainty` panics in `Intn(0)`.  At `n = 2^63 - 1`, `u = 1` with the
draw `d = 184467440737095515` the sum `n + delta` wraps and the result is
negative. -/
theorem giveWithUncertainty_wraps :
    (((0 : Int) ≤ 4611686018427387904 ∧ (0 : Int) ≤ 4 ∧ (4 : Int) ≤ 100 ∧
        (0 : Int) < 4611686018427387904 * 4 / 50) ∧
      giveWithUncertainty (mainSimulator [0]) 4611686018427387904 4
        = .error .invalidArgumentToIntn) ∧
    (((0 : Int) ≤ 9223372036854775807 ∧ (0 : Int) ≤ 1 ∧ (1 : Int) ≤ 100 ∧
        (0 : Int) < 9223372036854775807 * 1 / 50 ∧
        (mainSimulator [184467440737095515]).rng.Intn (9223372036854775807 * 1 / 50)
          = .ok (184467440737095515,
                 { raw := (Rng.ofList [184467440737095515]).raw, pos := 1 })) ∧
      giveWithUncertainty (mainSimulator [184467440737095515]) 9223372036854775807 1
        = .ok (-9131138316486228052,
               { mainSimulator [184467440737095515] with
                 rng := { raw := (Rng.ofList [184467440737095515]).raw, pos := 1 } }) ∧
      (-9131138316486228052 : Int) < 0 ∧
      (-9131138316486228052 : Int)
        ≠ 9223372036854775807 + 184467440737095515 - 9223372036854775807 * 1 / 100) :=
  ⟨⟨by decide, rfl⟩, ⟨by decide, by decide, by decide, by decide, rfl⟩, rfl, by decide,
    by decide⟩

/-- C8, amended: for `n >= 0` and `u` in `[0, 100]` with `n*u/50 > 0`, with `n*u`
and `n + n*u/100` within the range of `int` (at most `2^63 - 1`), and every
outcome `d` of the draw `Intn(n*u/50)` (a value of `[0, n*u/50)`),
`giveWithUncertainty n u` returns `n + d - n*u/100`; the result differs from `n`
by at most `n*u/100` in absolute value, and it is not negative. -/
theorem giveWithUncertainty_bounded (s : Simulator) (n u d : Int) (r1 : Rng)
    (hn : 0 ≤ n) (hu0 : 0 ≤ u) (hu100 : u ≤ 100) (_hrange : 0 < n * u / 50)
    (hmul : n * u ≤ maxInt64) (hadd : n + n * u / 100 ≤ maxInt64)
    (hdraw : s.rng.Intn (n * u / 50) = .ok (d, r1)) :
    (0 ≤ d ∧ d < n * u / 50) ∧
    giveWithUncertainty s n u = .ok (n + d - n * u / 100, { s with rng := r1 }) ∧
    |(n + d - n * u / 100) - n| ≤ n * u / 100 ∧
    0 ≤ n + d - n * u / 100 := by
  have hx : 0 ≤ n * u := Int.mul_nonneg hn hu0
  have hxn : n * u ≤ n * 100 := Int.mul_le_mul_of_nonneg_left hu100 hn
  obtain ⟨-, hd0, hd, -⟩ := Rng.Intn_ok hdraw
  refine ⟨⟨hd0, hd⟩, giveWithUncertainty_exact s hn hu0 hmul hadd hdraw, ?_, ?_⟩
  · rw [abs_le]
    generalize n * u = x at *
    omega
  · generalize n * u = x at *
    omega

/-- Witness of C8: `n = 1000`, `u = 70`, raw draw 1500, so `d = 1500 % 1400 = 100`. -/
theorem giveWithUncertainty_bounded_witness :
    ((0 : Int) ≤ 1000 ∧ (0 : Int) ≤ 70 ∧ (70 : Int) ≤ 100 ∧ (0 : Int) < 1000 * 70 / 50 ∧
      (1000 : Int) * 70 ≤ maxInt64 ∧ (1000 : Int) + 1000 * 70 / 100 ≤ maxInt64 ∧
      (mainSimulator [1500]).rng.Intn (1000 * 70 / 50)
        = .ok (100, { raw := (Rng.ofList [1500]).raw, pos := 1 })) ∧
    giveWithUncertainty (mainSimulator [1500]) 1000 70
      = .ok (1000 + 100 - 1000 * 70 / 100,
             { mainSimulator [1500] with rng := { raw := (Rng.ofList [1500]).raw, pos := 1 } }) :=
  ⟨⟨by decide, by decide, by decide, by decide, by decide, by decide, rfl⟩,
   (giveWithUncertainty_bounded (mainSimulator [1500]) 1000 70 100
      { raw := (Rng.ofList [1500]).raw, pos := 1 }
      (by decide) (by decide) (by decide) (by decide) (by decide) (by decide) rfl).2.1⟩

/-! ## Request rate and status: theorems -/

/-- What a spike decision leaves behind: the configuration and the raw draws
are untouched, the cursor moves by one in mode `RANDOM` and not at all
otherwise, and the stored flag is the returned value. -/
theorem giveSpikeMode_ok {s s1 : Simulator} {spike : Bool}
    (h : giveSpikeMode s = .ok (spike, s1)) :
    s1.opts = s.opts ∧ s1.rng.raw = s.rng.raw ∧
    s1.rng.pos = (if s.opts.SpikeModeStatus = RANDOM then s.rng.pos + 1 else s.rng.pos) ∧
    s1.spikeMode = spike := by
  have h100 : (0 : Int) < 100 := by norm_num
  unfold giveSpikeMode at h
  by_cases hon : s.opts.SpikeModeStatus = ON
  · rw [if_pos hon] at h
    simp only [Except.ok.injEq, Prod.mk.injEq] at h
    obtain ⟨rfl, rfl⟩ := h
    simp [hon, ON, RANDOM]
  rw [if_neg hon] at h
  by_cases hoff : s.opts.SpikeModeStatus = OFF
  · rw [if_pos hoff] at h
    simp only [Except.ok.injEq, Prod.mk.injEq] at h
    obtain ⟨rfl, rfl⟩ := h
    simp [hoff, OFF, RANDOM]
  rw [if_neg hoff] at h
  by_cases hrandom : s.opts.SpikeModeStatus = RANDOM
  · rw [if_pos hrandom, Rng.Intn_of_pos _ h100] at h
    dsimp only at h
    split_ifs at h <;>
      simp only [Except.ok.injEq, Prod.mk.injEq] at h <;>
      obtain ⟨rfl, rfl⟩ := h <;>
      simp [hrandom]
  · rw [if_neg hrandom] at h
    simp only [Except.ok.injEq, Prod.mk.injEq] at h
    obtain ⟨rfl, rfl⟩ := h
    simp [hrandom]

/-- The spike decision looks at the random source only in mode `RANDOM`, and
there only at the raw draw under the cursor: on a source with the same cursor
and the same raw draw there, the decision is the same and the source is left
at the same cursor. -/
theorem giveSpikeMode_congr_rng (s : Simulator) (raw : Nat → Nat)
    (hraw : s.opts.SpikeModeStatus = RANDOM → raw s.rng.pos = s.rng.raw s.rng.pos)
    {spike : Bool} {s1 : Simulator} (h : giveSpikeMode s = .ok (spike, s1)) :
    giveSpikeMode { s with rng := { raw := raw, pos := s.rng.pos } }
      = .ok (spike, { s1 with rng := { raw := raw, pos := s1.rng.pos } }) := by
  have h100 : (0 : Int) < 100 := by norm_num
  unfold giveSpikeMode at h ⊢
  by_cases hon : s.opts.SpikeModeStatus = ON
  · rw [if_pos hon] at h
    simp only [Except.ok.injEq, Prod.mk.injEq] at h
    obtain ⟨rfl, rfl⟩ := h
    simp [hon]
  rw [if_neg hon] at h
  by_cases hoff : s.opts.SpikeModeStatus = OFF
  · rw [if_pos hoff] at h
    simp only [Except.ok.injEq, Prod.mk.injEq] at h
    obtain ⟨rfl, rfl⟩ := h
    simp [hoff, ON, OFF]
  rw [if_neg hoff] at h
  by_cases hrandom : s.opts.SpikeModeStatus = RANDOM
  · rw [if_pos hrandom, Rng.Intn_of_pos _ h100] at h
    dsimp only at h
    split_ifs at h with c1 c2
    all_goals
      simp only [Except.ok.injEq, Prod.mk.injEq] at h
      obtain ⟨rfl, rfl⟩ := h
      simp [hrandom, Rng.Intn_of_pos _ h100, hraw hrandom, ON, OFF, RANDOM, *]
  · rw [if_neg hrandom] at h
    simp only [Except.ok.injEq, Prod.mk.injEq] at h
    obtain ⟨rfl, rfl⟩ := h
    simp [hon, hoff, hrandom]

/-- C9, as stated, fails in `int` arithmetic: with `RequestRate = 2^62`, mode
`ON` and the draw 0 the factor is 5, the product `5 * 2^62` wraps, and the rate
before jitter is `2^62`, which is `RequestRate * k` for no `k` of `[5, 14]`. -/
theorem requestRate_wraps :
    giveSpikeMode
        (UpdateOpts (mainSimulator [0])
          { mainOpts with RequestRate := 4611686018427387904, SpikeModeStatus := ON })
      = .ok (true,
          { opts := { mainOpts with RequestRate := 4611686018427387904, SpikeModeStatus := ON },
            rng := Rng.ofList [0], spikeMode := true }) ∧
    simulateActivity.requestRate
        (UpdateOpts (mainSimulator [0])
          { mainOpts with RequestRate := 4611686018427387904, SpikeModeStatus := ON })
      = .ok (4611686018427387904,
          { opts := { mainOpts with RequestRate := 4611686018427387904, SpikeModeStatus := ON },
            rng := { raw := (Rng.ofList [0]).raw, pos := 1 }, spikeMode := true }) ∧
    ¬ ∃ k : Int, 5 ≤ k ∧ k ≤ 14 ∧ (4611686018427387904 : Int) = 4611686018427387904 * k := by
  refine ⟨rfl, rfl, ?_⟩
  rintro ⟨k, h5, h14, h⟩
  omega

/-- C9, amended: let the spike decision of the tick be `spike`.  If it is
inactive the rate before jitter is `RequestRate`.  If it is active the rate is
`RequestRate * k` in `int` arithmetic with `k = 5 + Intn(10)`, an integer with
`5 <= k <= 14`: the exact product whenever that lies in `[-2^63, 2^63)`, its
wrap-around otherwise; and for every `k` of that range there is a random
source, leading to the same active decision, on which the factor is `k`. -/
theorem requestRate_before_jitter (s s1 : Simulator) (spike : Bool)
    (hspike : giveSpikeMode s = .ok (spike, s1)) :
    (spike = false → simulateActivity.requestRate s = .ok (s.opts.RequestRate, s1)) ∧
    (spike = true →
      (∃ k r1, 5 ≤ k ∧ k ≤ 14 ∧ s1.rng.Intn 10 = .ok (k - 5, r1) ∧
        simulateActivity.requestRate s
          = .ok (int64 (s.opts.RequestRate * k), { s1 with rng := r1 }) ∧
        (minInt64 ≤ s.opts.RequestRate * k → s.opts.RequestRate * k ≤ maxInt64 →
          simulateActivity.requestRate s
            = .ok (s.opts.RequestRate * k, { s1 with rng := r1 }))) ∧
      (∀ k : Int, 5 ≤ k → k ≤ 14 →
        ∃ rng s2 s3, giveSpikeMode { s with rng := rng } = .ok (true, s2) ∧
          simulateActivity.requestRate { s with rng := rng }
            = .ok (int64 (s.opts.RequestRate * k), s3) ∧
          (minInt64 ≤ s.opts.RequestRate * k → s.opts.RequestRate * k ≤ maxInt64 →
            simulateActivity.requestRate { s with rng := rng }
              = .ok (s.opts.RequestRate * k, s3)))) := by
  have h10 : (0 : Int) < 10 := by norm_num
  have hfactor : ∀ j : Int, 0 ≤ j → j < 10 → int64 (5 + j) = 5 + j := by
    intro j h0 h1
    apply int64_of_range
    · unfold minInt64
      omega
    · unfold maxInt64
      omega
  refine ⟨?_, ?_⟩
  · intro hb
    subst hb
    simp [simulateActivity.requestRate, hspike]
  · intro hb
    subst hb
    refine ⟨?_, ?_⟩
    · have hj0 := Int.emod_nonneg (s1.rng.raw s1.rng.pos : Int) (show (10 : Int) ≠ 0 by norm_num)
      have hj1 := Int.emod_lt_of_pos (s1.rng.raw s1.rng.pos : Int) h10
      have hrate : simulateActivity.requestRate s
          = .ok (int64 (s.opts.RequestRate * (5 + (s1.rng.raw s1.rng.pos : Int) % 10)),
              { s1 with rng := { s1.rng with pos := s1.rng.pos + 1 } }) := by
        simp [simulateActivity.requestRate, hspike, Rng.Intn_of_pos _ h10, hfactor _ hj0 hj1]
      refine ⟨5 + (s1.rng.raw s1.rng.pos : Int) % 10, { s1.rng with pos := s1.rng.pos + 1 },
        by omega, by omega, ?_, hrate, ?_⟩
      · rw [Rng.Intn_of_pos _ h10]
        simp
      · intro hlo hhi
        rw [hrate, int64_of_range hlo hhi]
    · intro k hk5 hk14
      have hsame : s.opts.SpikeModeStatus = RANDOM →
          Function.update s.rng.raw s1.rng.pos (k - 5).toNat s.rng.pos = s.rng.raw s.rng.pos := by
        intro hrandom
        have hs1 := (giveSpikeMode_ok hspike).2.2.1
        rw [if_pos hrandom] at hs1
        exact Function.update_noteq (by omega) _ _
      have hs2 := giveSpikeMode_congr_rng s
        (Function.update s.rng.raw s1.rng.pos (k - 5).toNat) hsame hspike
      have hk : ((k - 5).toNat : Int) % 10 = k - 5 := by
        rw [Int.toNat_of_nonneg (by omega)]
        exact Int.emod_eq_of_lt (by omega) (by omega)
      have hk5k : (5 : Int) + (k - 5) = k := by omega
      have hrate : simulateActivity.requestRate
            { s with rng :=
              { raw := Function.update s.rng.raw s1.rng.pos (k - 5).toNat, pos := s.rng.pos } }
          = .ok (int64 (s.opts.RequestRate * k), { s1 with rng :=
              { raw := Function.update s.rng.raw s1.rng.pos (k - 5).toNat,
                pos := s1.rng.pos + 1 } }) := by
        have hk64 : int64 k = k := by
          have h := hfactor (k - 5) (by omega) (by omega)
          rwa [hk5k] at h
        simp only [simulateActivity.requestRate, hs2, Rng.Intn_of_pos _ h10, if_true,
          Function.update_same, hk, hk5k, hk64]
      refine ⟨_, _, _, hs2, hrate, ?_⟩
      intro hlo hhi
      rw [hrate, int64_of_range hlo hhi]

/-- Witness of C9: mode `ON` on the simulator of `cmd/main.go`; the draw 4 gives
the factor 9 and the rate 9000. -/
theorem requestRate_before_jitter_witness :
    giveSpikeMode (SetSpikeMode (mainSimulator [4]) "on")
      = .ok (true, { SetSpikeMode (mainSimulator [4]) "on" with spikeMode := true }) ∧
    ∃ k r1, (5 : Int) ≤ k ∧ k ≤ 14 ∧
      ({ SetSpikeMode (mainSimulator [4]) "on" with spikeMode := true } : Simulator).rng.Intn 10
        = .ok (k - 5, r1) ∧
      simulateActivity.requestRate (SetSpikeMode (mainSimulator [4]) "on")
        = .ok (int64 ((SetSpikeMode (mainSimulator [4]) "on").opts.RequestRate * k),
            { ({ SetSpikeMode (mainSimulator [4]) "on" with spikeMode := true } : Simulator)
              with rng := r1 }) ∧
      (minInt64 ≤ (SetSpikeMode (mainSimulator [4]) "on").opts.RequestRate * k →
        (SetSpikeMode (mainSimulator [4]) "on").opts.RequestRate * k ≤ maxInt64 →
        simulateActivity.requestRate (SetSpikeMode (mainSimulator [4]) "on")
          = .ok ((SetSpikeMode (mainSimulator [4]) "on").opts.RequestRate * k,
            { ({ SetSpikeMode (mainSimulator [4]) "on" with spikeMode := true } : Simulator)
              with rng := r1 })) :=
  ⟨rfl, ((requestRate_before_jitter (SetSpikeMode (mainSimulator [4]) "on")
      { SetSpikeMode (mainSimulator [4]) "on" with spikeMode := true } true rfl).2 rfl).1⟩

/-- C10: for every `ErrorRate` and every outcome `d` of the draw `Intn(100)` (a
value of `[0, 100)`), `giveStatusCode` returns "500" if `d < ErrorRate` and "200"
otherwise; so the status is "500" exactly when `d < ErrorRate`, and it is never
anything but "500" or "200". -/
theorem giveStatusCode_spec (s : Simulator) (d : Int) (r1 : Rng)
    (hdraw : s.rng.Intn 100 = .ok (d, r1)) :
    (0 ≤ d ∧ d < 100) ∧
    ∃ statusCode, giveStatusCode s = .ok (statusCode, { s with rng := r1 }) ∧
      statusCode = (if d < s.opts.ErrorRate then "500" else "200") ∧
      (statusCode = "500" ↔ d < s.opts.ErrorRate) ∧
      (statusCode = "500" ∨ statusCode = "200") := by
  obtain ⟨-, h0, h100, -⟩ := Rng.Intn_ok hdraw
  refine ⟨⟨h0, h100⟩, ?_⟩
  by_cases h : d < s.opts.ErrorRate
  · exact ⟨"500", by simp [giveStatusCode, hdraw, h], by simp [h], by simp [h], Or.inl rfl⟩
  · exact ⟨"200", by simp [giveStatusCode, hdraw, h], by simp [h],
      by simp only [h, iff_false]; decide, Or.inr rfl⟩

/-- Witness of C10: draw 0 against `ErrorRate = 1`. -/
theorem giveStatusCode_spec_witness :
    (mainSimulator [0]).rng.Intn 100 = .ok (0, { raw := (Rng.ofList [0]).raw, pos := 1 }) ∧
    ∃ statusCode,
      giveStatusCode (mainSimulator [0])
        = .ok (statusCode,
            { mainSimulator [0] with rng := { raw := (Rng.ofList [0]).raw, pos := 1 } }) ∧
      statusCode = (if (0 : Int) < (mainSimulator [0]).opts.ErrorRate then "500" else "200") ∧
      (statusCode = "500" ↔ (0 : Int) < (mainSimulator [0]).opts.ErrorRate) ∧
      (statusCode = "500" ∨ statusCode = "200") :=
  ⟨rfl, (giveStatusCode_spec (mainSimulator [0]) 0
      { raw := (Rng.ofList [0]).raw, pos := 1 } rfl).2⟩

/-! ## Frame of the sampling steps -/

/-- The jitter function changes nothing but the random source. -/
theorem giveWithUncertainty_frame {s s1 : Simulator} {n u x : Int}
    (h : giveWithUncertainty s n u = .ok (x, s1)) : s1 = { s with rng := s1.rng } := by
  unfold giveWithUncertainty at h
  split at h
  · cases h
  · cases h; rfl

/-- The status sampler changes nothing but the random source. -/
theorem giveStatusCode_frame {s s1 : Simulator} {c : String}
    (h : giveStatusCode s = .ok (c, s1)) : s1 = { s with rng := s1.rng } := by
  unfold giveStatusCode at h
  split at h
  · cases h
  · split at h <;> cases h <;> rfl

/-- The endpoint sampler changes nothing but the random source. -/
theorem giveEndpoint_frame {s s1 : Simulator} {e : String}
    (h : giveEndpoint s = .ok (e, s1)) : s1 = { s with rng := s1.rng } := by
  unfold giveEndpoint at h
  split at h
  · cases h
  · split at h <;> cases h
    rfl

/-- A band draw followed by the jitter changes nothing but the random source. -/
theorem giveLatency.band_frame {s s1 : Simulator} {lo hi x : Int}
    (h : giveLatency.band s lo hi = .ok (x, s1)) : s1 = { s with rng := s1.rng } := by
  unfold giveLatency.band at h
  split at h
  · cases h
  · have := giveWithUncertainty_frame h
    exact this

/-- The latency sampler changes nothing but the random source. -/
theorem giveLatency_frame {s s1 : Simulator} {c : String} {x : Int}
    (h : giveLatency s c = .ok (x, s1)) : s1 = { s with rng := s1.rng } := by
  unfold giveLatency at h
  split at h
  · split at h
    · cases h
    · cases h; rfl
  · split at h
    · cases h
    · dsimp only at h
      split_ifs at h <;>
      · have := giveLatency.band_frame h
        exact this

/-! ## Accessors, continued: theorems -/

/-- C17: for every state and every configuration `c`, `GetOpts` after
`UpdateOpts c` returns `c` itself: every field is that of `c` and nothing of
the previous configuration is left. -/
theorem GetOpts_UpdateOpts (s : Simulator) (c : SimulatorOpts) :
    GetOpts (UpdateOpts s c) = c := by
  rfl

/-- C18: `UpdateOpts`, `SetSpikeMode` and `SetErrorRate` leave the latched flag
`spikeMode` as it was, and `GetOpts` only reads the configuration (it has no
state result); `SetErrorRate` changes the field `ErrorRate` and nothing else.  Among
the steps of a tick the flag is written by `giveSpikeMode` only: the jitter
function and the status, endpoint and latency samplers return a state with
the same flag and configuration. -/
theorem accessors_frame (s : Simulator) (c : SimulatorOpts) (mode : String) (rate : Int) :
    (UpdateOpts s c).spikeMode = s.spikeMode ∧
    (SetSpikeMode s mode).spikeMode = s.spikeMode ∧
    (SetErrorRate s rate).spikeMode = s.spikeMode ∧
    GetOpts s = s.opts ∧
    SetErrorRate s rate
      = { s with opts := { s.opts with ErrorRate := (GetOpts (SetErrorRate s rate)).ErrorRate } } ∧
    (∀ n u x s1, giveWithUncertainty s n u = .ok (x, s1) →
      s1.spikeMode = s.spikeMode ∧ s1.opts = s.opts) ∧
    (∀ x s1, giveStatusCode s = .ok (x, s1) → s1.spikeMode = s.spikeMode ∧ s1.opts = s.opts) ∧
    (∀ x s1, giveEndpoint s = .ok (x, s1) → s1.spikeMode = s.spikeMode ∧ s1.opts = s.opts) ∧
    (∀ statusCode x s1, giveLatency s statusCode = .ok (x, s1) →
      s1.spikeMode = s.spikeMode ∧ s1.opts = s.opts) := by
  refine ⟨rfl, ?_, rfl, rfl, rfl, ?_, ?_, ?_, ?_⟩
  · unfold SetSpikeMode
    split_ifs <;> rfl
  · intro n u x s1 h
    rw [giveWithUncertainty_frame h]
    exact ⟨rfl, rfl⟩
  · intro x s1 h
    rw [giveStatusCode_frame h]
    exact ⟨rfl, rfl⟩
  · intro x s1 h
    rw [giveEndpoint_frame h]
    exact ⟨rfl, rfl⟩
  · intro statusCode x s1 h
    rw [giveLatency_frame h]
    exact ⟨rfl, rfl⟩

/-! ## Latency sampler: theorems -/

/-- On a status other than "200" the latency sampler returns `5 + Intn(50)`. -/
theorem giveLatency_of_error (s : Simulator) {statusCode : String} (hc : statusCode ≠ "200") :
    giveLatency s statusCode
      = .ok (5 + (s.rng.raw s.rng.pos : Int) % 50, { s with rng := { s.rng with pos := s.rng.pos + 1 } }) := by
  have h50 : (0 : Int) < 50 := by norm_num
  have h0 := Int.emod_nonneg (s.rng.raw s.rng.pos : Int) (ne_of_gt h50)
  have h1 := Int.emod_lt_of_pos (s.rng.raw s.rng.pos : Int) h50
  have hw : int64 (5 + (s.rng.raw s.rng.pos : Int) % 50) = 5 + (s.rng.raw s.rng.pos : Int) % 50 := by
    apply int64_of_range
    · unfold minInt64
      omega
    · unfold maxInt64
      omega
  simp [giveLatency, hc, Rng.Intn_of_pos _ h50, hw]

/-- On status "200" the latency sampler draws `p` and samples the band the
specification assigns to `p`. -/
theorem giveLatency_of_success (s : Simulator) {p : Int} {r1 : Rng}
    (hp : s.rng.Intn 100 = .ok (p, r1)) :
    giveLatency s "200"
      = giveLatency.band { s with rng := r1 } (latencyBandSpec s.opts p).1
          (latencyBandSpec s.opts p).2 := by
  simp only [giveLatency, hp, latencyBandSpec, ne_eq, not_true_eq_false, if_false]
  split_ifs <;> rfl

/-- A band draw with outcome `r` passes `lo + r` to the jitter function, with
`LatencyUncertainty`; the width `hi - lo` and the sum `lo + r` are computed in
`int` arithmetic. -/
theorem giveLatency.band_of_draw (s : Simulator) {lo hi r : Int} {r2 : Rng}
    (hr : s.rng.Intn (int64 (hi - lo)) = .ok (r, r2)) :
    giveLatency.band s lo hi
      = giveWithUncertainty { s with rng := r2 } (int64 (lo + r)) s.opts.LatencyUncertainty := by
  simp [giveLatency.band, hr]

/-- A band draw without overflow: for bounds within the range of `int` whose
width `hi - lo` is within it too, the draw is `Intn(hi - lo)` and the base value
the exact `lo + r`. -/
theorem giveLatency.band_exact (s : Simulator) {lo hi r : Int} {r2 : Rng}
    (hlo : minInt64 ≤ lo) (hhi : hi ≤ maxInt64) (hspan : hi - lo ≤ maxInt64)
    (hr : s.rng.Intn (hi - lo) = .ok (r, r2)) :
    giveLatency.band s lo hi
      = giveWithUncertainty { s with rng := r2 } (lo + r) s.opts.LatencyUncertainty := by
  obtain ⟨hpos, hr0, hrlt, -⟩ := Rng.Intn_ok hr
  have hw : int64 (hi - lo) = hi - lo := by
    apply int64_of_range _ hspan
    unfold minInt64
    omega
  have hb : int64 (lo + r) = lo + r := by
    apply int64_of_range
    · unfold minInt64 at *
      omega
    · unfold maxInt64 at *
      omega
  rw [← hw] at hr
  rw [giveLatency.band_of_draw s hr, hb]

/-- With `ErrorRate = 0` no draw of `[0, 100)` is below it: the status is "200". -/
theorem giveStatusCode_of_errorRate_zero (s : Simulator) (hrate : s.opts.ErrorRate = 0) :
    giveStatusCode s = .ok ("200", { s with rng := { s.rng with pos := s.rng.pos + 1 } }) := by
  have h := Int.emod_nonneg (s.rng.raw s.rng.pos : Int) (show (100 : Int) ≠ 0 by norm_num)
  simp [giveStatusCode, hrate, Rng.Intn_of_pos _ (show (0 : Int) < 100 by norm_num),
    not_lt.mpr h]

/-- With `ErrorRate = 100` every draw of `[0, 100)` is below it: the status is
"500". -/
theorem giveStatusCode_of_errorRate_hundred (s : Simulator) (hrate : s.opts.ErrorRate = 100) :
    giveStatusCode s = .ok ("500", { s with rng := { s.rng with pos := s.rng.pos + 1 } }) := by
  have h := Int.emod_lt_of_pos (s.rng.raw s.rng.pos : Int) (show (0 : Int) < 100 by norm_num)
  simp [giveStatusCode, hrate, Rng.Intn_of_pos _ (show (0 : Int) < 100 by norm_num), h]

/-- C11: with `ErrorRate = 100`, whatever the draw, the sampled status is "500";
and for every state (whatever its milestones and `LatencyUncertainty`) the
latency `giveLatency` samples for status "500" is `5 + d` for the outcome `d` of
`Intn(50)`, so it lies in `[5, 55)`. -/
theorem errorRate_hundred_status_and_latency (s : Simulator)
    (hrate : s.opts.ErrorRate = 100) :
    (∃ s1, giveStatusCode s = .ok ("500", s1)) ∧
    (∀ t : Simulator, ∃ d r1, t.rng.Intn 50 = .ok (d, r1) ∧ 0 ≤ d ∧ d < 50 ∧
      giveLatency t "500" = .ok (5 + d, { t with rng := r1 }) ∧
      5 ≤ 5 + d ∧ 5 + d < 55) := by
  refine ⟨⟨_, giveStatusCode_of_errorRate_hundred s hrate⟩, ?_⟩
  intro t
  have h50 : (0 : Int) < 50 := by norm_num
  have h0 := Int.emod_nonneg (t.rng.raw t.rng.pos : Int) (ne_of_gt h50)
  have h1 := Int.emod_lt_of_pos (t.rng.raw t.rng.pos : Int) h50
  exact ⟨_, _, Rng.Intn_of_pos _ h50, h0, h1, giveLatency_of_error t (by decide),
    by omega, by omega⟩

/-- Witness of C11: the simulator of `cmd/main.go` after `SetErrorRate 100`. -/
theorem errorRate_hundred_status_and_latency_witness :
    (SetErrorRate (mainSimulator [7]) 100).opts.ErrorRate = 100 ∧
    ∃ s1, giveStatusCode (SetErrorRate (mainSimulator [7]) 100) = .ok ("500", s1) :=
  ⟨by decide,
   (errorRate_hundred_status_and_latency (SetErrorRate (mainSimulator [7]) 100) (by decide)).1⟩

/-- The band of every draw lies between `LatencyMin` and `LatencyMax` when the
milestones are non-decreasing. -/
theorem latencyBandSpec_within (o : SimulatorOpts) (p : Int)
    (hmono : o.LatencyMin ≤ o.LatencyP50 ∧ o.LatencyP50 ≤ o.LatencyP90 ∧
      o.LatencyP90 ≤ o.LatencyP99 ∧ o.LatencyP99 ≤ o.LatencyMax) :
    o.LatencyMin ≤ (latencyBandSpec o p).1 ∧ (latencyBandSpec o p).2 ≤ o.LatencyMax ∧
    (latencyBandSpec o p).1 ≤ (latencyBandSpec o p).2 := by
  unfold latencyBandSpec
  split_ifs <;> simp only <;> omega

/-- C12, as stated, fails: with the configuration of `cmd/main.go` (milestones
10 <= 25 <= 150 <= 750 <= 10000, `LatencyUncertainty = 70`) and `ErrorRate = 0`,
on the draws `p = 0`, `r = 0`, `d = 0` the base value is 10, the jitter is
`0 - 10*70/100 = -7`, and `giveLatency` returns 3: below `LatencyMin`, so outside
the band `[10, 25)` of `p` and outside `[LatencyMin, LatencyMax)`. -/
theorem giveLatency_leaves_band :
    (SetErrorRate (mainSimulator [0, 0, 0]) 0).opts.ErrorRate = 0 ∧
    (mainOpts.LatencyMin ≤ mainOpts.LatencyP50 ∧ mainOpts.LatencyP50 ≤ mainOpts.LatencyP90 ∧
      mainOpts.LatencyP90 ≤ mainOpts.LatencyP99 ∧ mainOpts.LatencyP99 ≤ mainOpts.LatencyMax) ∧
    giveLatency (SetErrorRate (mainSimulator [0, 0, 0]) 0) "200"
      = .ok (3, { SetErrorRate (mainSimulator [0, 0, 0]) 0 with
                  rng := { raw := (Rng.ofList [0, 0, 0]).raw, pos := 3 } }) ∧
    ¬ (mainOpts.LatencyMin ≤ (3 : Int) ∧ (3 : Int) < mainOpts.LatencyMax) ∧
    ¬ ((latencyBandSpec mainOpts 0).1 ≤ (3 : Int) ∧ (3 : Int) < (latencyBandSpec mainOpts 0).2) :=
  ⟨by decide, by decide, rfl, by decide, by decide⟩

/-- C12, amended: with `ErrorRate = 0` the sampled status is "200", whatever the
draw.  With non-decreasing milestones, `LatencyMin >= 0`, `LatencyUncertainty`
in `[0, 100]` and `LatencyMax * 100` within the range of `int` (at most
`2^63 - 1`), whenever the band draw (outcome `r`) and the jitter draw (outcome
`d`) of `giveLatency` succeed, the base value `lo + r` lies in the band
`[lo, hi)` of the draw `p`, and `giveLatency` returns
`base + d - base*LatencyUncertainty/100`: a value within
`base*LatencyUncertainty/100` of the base value, and not negative. -/
theorem giveLatency_jittered_band (s : Simulator) (hrate : s.opts.ErrorRate = 0) :
    (∃ s1, giveStatusCode s = .ok ("200", s1)) ∧
    ∀ (p r d : Int) (r1 r2 r3 : Rng),
      0 ≤ s.opts.LatencyMin →
      (s.opts.LatencyMin ≤ s.opts.LatencyP50 ∧ s.opts.LatencyP50 ≤ s.opts.LatencyP90 ∧
        s.opts.LatencyP90 ≤ s.opts.LatencyP99 ∧ s.opts.LatencyP99 ≤ s.opts.LatencyMax) →
      IsPercentage s.opts.LatencyUncertainty →
      s.opts.LatencyMax * 100 ≤ maxInt64 →
      s.rng.Intn 100 = .ok (p, r1) →
      r1.Intn ((latencyBandSpec s.opts p).2 - (latencyBandSpec s.opts p).1) = .ok (r, r2) →
      r2.Intn (((latencyBandSpec s.opts p).1 + r) * s.opts.LatencyUncertainty / 50)
        = .ok (d, r3) →
      ((latencyBandSpec s.opts p).1 ≤ (latencyBandSpec s.opts p).1 + r ∧
        (latencyBandSpec s.opts p).1 + r < (latencyBandSpec s.opts p).2) ∧
      giveLatency s "200"
        = .ok ((latencyBandSpec s.opts p).1 + r + d
                 - ((latencyBandSpec s.opts p).1 + r) * s.opts.LatencyUncertainty / 100,
               { s with rng := r3 }) ∧
      |((latencyBandSpec s.opts p).1 + r + d
          - ((latencyBandSpec s.opts p).1 + r) * s.opts.LatencyUncertainty / 100)
        - ((latencyBandSpec s.opts p).1 + r)|
        ≤ ((latencyBandSpec s.opts p).1 + r) * s.opts.LatencyUncertainty / 100 ∧
      0 ≤ (latencyBandSpec s.opts p).1 + r + d
            - ((latencyBandSpec s.opts p).1 + r) * s.opts.LatencyUncertainty / 100 := by
  refine ⟨⟨_, giveStatusCode_of_errorRate_zero s hrate⟩, ?_⟩
  intro p r d r1 r2 r3 hmin hmono hu hmax hp hr hd
  obtain ⟨hu0, hu100⟩ := hu
  obtain ⟨-, hr0, hrlt, -⟩ := Rng.Intn_ok hr
  obtain ⟨-, hd0, hdlt, -⟩ := Rng.Intn_ok hd
  obtain ⟨hb1, hb2, -⟩ := latencyBandSpec_within s.opts p hmono
  have hmax2 : s.opts.LatencyMax ≤ maxInt64 := by
    unfold maxInt64 at *
    omega
  have hband := (giveLatency_of_success s hp).trans
    (giveLatency.band_exact _ (by unfold minInt64; omega) (by omega) (by omega) hr)
  generalize (latencyBandSpec s.opts p).1 = lo at *
  generalize (latencyBandSpec s.opts p).2 = hi at *
  have hbase : 0 ≤ lo + r := by omega
  have hx : 0 ≤ (lo + r) * s.opts.LatencyUncertainty := Int.mul_nonneg hbase hu0
  have hxn : (lo + r) * s.opts.LatencyUncertainty ≤ (lo + r) * 100 :=
    Int.mul_le_mul_of_nonneg_left hu100 hbase
  have hmul : (lo + r) * s.opts.LatencyUncertainty ≤ maxInt64 := by
    unfold maxInt64 at *
    omega
  have hadd : lo + r + (lo + r) * s.opts.LatencyUncertainty / 100 ≤ maxInt64 := by
    unfold maxInt64 at *
    generalize (lo + r) * s.opts.LatencyUncertainty = x at *
    omega
  refine ⟨⟨by omega, by omega⟩, ?_, ?_, ?_⟩
  · rw [hband]
    exact giveWithUncertainty_exact _ hbase hu0 hmul hadd hd
  · rw [abs_le]
    generalize (lo + r) * s.opts.LatencyUncertainty = x at *
    omega
  · generalize (lo + r) * s.opts.LatencyUncertainty = x at *
    omega

/-- Witness of C12 (amended): the simulator of `cmd/main.go` with `ErrorRate = 0`
on the draws `p = 60`, `r = 200 % 125 = 75`, `d = 5`: status "200", base value
100, returned latency `100 + 5 - 70 = 35`. -/
theorem giveLatency_jittered_band_witness :
    ((SetErrorRate (mainSimulator [60, 200, 5]) 0).opts.ErrorRate = 0 ∧
      (0 : Int) ≤ (SetErrorRate (mainSimulator [60, 200, 5]) 0).opts.LatencyMin ∧
      IsPercentage (SetErrorRate (mainSimulator [60, 200, 5]) 0).opts.LatencyUncertainty ∧
      (SetErrorRate (mainSimulator [60, 200, 5]) 0).opts.LatencyMax * 100 ≤ maxInt64 ∧
      (SetErrorRate (mainSimulator [60, 200, 5]) 0).rng.Intn 100
        = .ok (60, { raw := (Rng.ofList [60, 200, 5]).raw, pos := 1 }) ∧
      ({ raw := (Rng.ofList [60, 200, 5]).raw, pos := 1 } : Rng).Intn (150 - 25)
        = .ok (75, { raw := (Rng.ofList [60, 200, 5]).raw, pos := 2 }) ∧
      ({ raw := (Rng.ofList [60, 200, 5]).raw, pos := 2 } : Rng).Intn ((25 + 75) * 70 / 50)
        = .ok (5, { raw := (Rng.ofList [60, 200, 5]).raw, pos := 3 })) ∧
    (∃ s1, giveStatusCode (SetErrorRate (mainSimulator [60, 200, 5]) 0) = .ok ("200", s1)) ∧
    giveLatency (SetErrorRate (mainSimulator [60, 200, 5]) 0) "200"
      = .ok (35, { SetErrorRate (mainSimulator [60, 200, 5]) 0 with
                   rng := { raw := (Rng.ofList [60, 200, 5]).raw, pos := 3 } }) :=
  ⟨⟨by decide, by decide, by decide, by decide, rfl, rfl, rfl⟩,
   (giveLatency_jittered_band (SetErrorRate (mainSimulator [60, 200, 5]) 0) (by decide)).1,
   ((giveLatency_jittered_band (SetErrorRate (mainSimulator [60, 200, 5]) 0) (by decide)).2
      60 75 5
      { raw := (Rng.ofList [60, 200, 5]).raw, pos := 1 }
      { raw := (Rng.ofList [60, 200, 5]).raw, pos := 2 }
      { raw := (Rng.ofList [60, 200, 5]).raw, pos := 3 }
      (by decide) (by decide) (by decide) (by decide) rfl rfl rfl).2.1⟩

/-! ## The sampling steps do not read the spike flag -/

theorem giveWithUncertainty_spikeMode (s : Simulator) (b : Bool) (n u : Int) :
    giveWithUncertainty { s with spikeMode := b } n u
      = match giveWithUncertainty s n u with
        | .error e => .error e
        | .ok (x, s1) => .ok (x, { s1 with spikeMode := b }) := by
  unfold giveWithUncertainty
  dsimp only
  rcases s.rng.Intn _ with e | ⟨d, r⟩ <;> rfl

theorem giveStatusCode_spikeMode (s : Simulator) (b : Bool) :
    giveStatusCode { s with spikeMode := b }
      = match giveStatusCode s with
        | .error e => .error e
        | .ok (x, s1) => .ok (x, { s1 with spikeMode := b }) := by
  unfold giveStatusCode
  dsimp only
  rcases s.rng.Intn 100 with e | ⟨d, r⟩
  · rfl
  · dsimp only
    split_ifs <;> rfl

theorem giveEndpoint_spikeMode (s : Simulator) (b : Bool) :
    giveEndpoint { s with spikeMode := b }
      = match giveEndpoint s with
        | .error e => .error e
        | .ok (x, s1) => .ok (x, { s1 with spikeMode := b }) := by
  unfold giveEndpoint
  dsimp only
  rcases s.rng.Intn _ with e | ⟨d, r⟩
  · rfl
  · dsimp only
    rcases s.opts.Endpoints[d.toNat]? with _ | e <;> rfl

theorem giveLatency.band_spikeMode (s : Simulator) (b : Bool) (lo hi : Int) :
    giveLatency.band { s with spikeMode := b } lo hi
      = match giveLatency.band s lo hi with
        | .error e => .error e
        | .ok (x, s1) => .ok (x, { s1 with spikeMode := b }) := by
  unfold giveLatency.band
  dsimp only
  rcases s.rng.Intn _ with e | ⟨d, r⟩
  · rfl
  · exact giveWithUncertainty_spikeMode { s with rng := r } b _ _

theorem giveLatency_spikeMode (s : Simulator) (b : Bool) (c : String) :
    giveLatency { s with spikeMode := b } c
      = match giveLatency s c with
        | .error e => .error e
        | .ok (x, s1) => .ok (x, { s1 with spikeMode := b }) := by
  unfold giveLatency
  dsimp only
  split_ifs
  · rcases s.rng.Intn 50 with e | ⟨d, r⟩ <;> rfl
  · rcases s.rng.Intn 100 with e | ⟨d, r⟩
    · rfl
    · dsimp only
      split_ifs <;> exact giveLatency.band_spikeMode { s with rng := r } b _ _

/-! ## One synthetic request: theorems -/

/-- A request whose three sampling steps succeed records one increment and one
observation under the sampled labels; the observed value is the conversion to
a double of the sampled latency, doubled in `int` arithmetic when the spike
flag is set. -/
theorem simulateActivity.request_of_steps {s s1 s2 s3 : Simulator}
    {statusCode endpoint : String} {latency : Int}
    (hst : giveStatusCode s = .ok (statusCode, s1))
    (hep : giveEndpoint s1 = .ok (endpoint, s2))
    (hlat : giveLatency s2 statusCode = .ok (latency, s3)) :
    simulateActivity.request s
      = .ok ([Metric.httpRequestsTotal endpoint statusCode,
              Metric.httpRequestDurationMs endpoint statusCode
                (float64 (if s.spikeMode then int64 (latency * 2) else latency))], s3) := by
  have hflag : s3.spikeMode = s.spikeMode := by
    rw [giveLatency_frame hlat, giveEndpoint_frame hep, giveStatusCode_frame hst]
  simp only [simulateActivity.request, simulateActivity.latency, hst, hep, hlat, hflag]
  cases s.spikeMode <;> simp

/-- A request that succeeds went through its three sampling steps. -/
theorem simulateActivity.request_ok {s s3 : Simulator} {out : List Metric}
    (h : simulateActivity.request s = .ok (out, s3)) :
    ∃ statusCode s1 endpoint s2 latency,
      giveStatusCode s = .ok (statusCode, s1) ∧ giveEndpoint s1 = .ok (endpoint, s2) ∧
      giveLatency s2 statusCode = .ok (latency, s3) ∧
      out = [Metric.httpRequestsTotal endpoint statusCode,
             Metric.httpRequestDurationMs endpoint statusCode
               (float64 (if s.spikeMode then int64 (latency * 2) else latency))] := by
  rcases hst : giveStatusCode s with e | ⟨statusCode, s1⟩
  · simp [simulateActivity.request, hst] at h
  rcases hep : giveEndpoint s1 with e | ⟨endpoint, s2⟩
  · simp [simulateActivity.request, hst, hep] at h
  rcases hlat : giveLatency s2 statusCode with e | ⟨latency, s4⟩
  · simp [simulateActivity.request, simulateActivity.latency, hst, hep, hlat] at h
  have h2 := simulateActivity.request_of_steps hst hep hlat
  rw [h] at h2
  simp only [Except.ok.injEq, Prod.mk.injEq] at h2
  obtain ⟨hout, hs⟩ := h2
  subst hs
  exact ⟨statusCode, s1, endpoint, s2, latency, rfl, hep, hlat, hout⟩

/-- C13, as stated, fails on large latencies.  With `LatencyMin = 2^62`,
`LatencyUncertainty = 1` and the draws 50 (status "200"), 0 (endpoint), `p = 0`,
`r = 0`, `d = 92233720368547757`, `giveLatency` returns 4657802878611661782.
With the spike flag set, `latency *= 2` wraps to a negative `int` and the
observed value is -9131138316486227968, not twice the latency; with the flag
clear, `float64(latency)` rounds and the observed value is 4657802878611661824,
not the latency. -/
theorem observed_latency_not_exact :
    giveLatency
        { opts := { mainOpts with
              LatencyMin := 4611686018427387904, LatencyP50 := 4611686018427387905,
              LatencyP90 := 4611686018427387906, LatencyP99 := 4611686018427387907,
              LatencyMax := 4611686018427387908, LatencyUncertainty := 1 },
          rng := { raw := (Rng.ofList [50, 0, 0, 0, 92233720368547757]).raw, pos := 2 },
          spikeMode := true } "200"
      = .ok (4657802878611661782,
          { opts := { mainOpts with
              LatencyMin := 4611686018427387904, LatencyP50 := 4611686018427387905,
              LatencyP90 := 4611686018427387906, LatencyP99 := 4611686018427387907,
              LatencyMax := 4611686018427387908, LatencyUncertainty := 1 },
            rng := { raw := (Rng.ofList [50, 0, 0, 0, 92233720368547757]).raw, pos := 5 },
            spikeMode := true }) ∧
    simulateActivity.request
        { opts := { mainOpts with
              LatencyMin := 4611686018427387904, LatencyP50 := 4611686018427387905,
              LatencyP90 := 4611686018427387906, LatencyP99 := 4611686018427387907,
              LatencyMax := 4611686018427387908, LatencyUncertainty := 1 },
          rng := Rng.ofList [50, 0, 0, 0, 92233720368547757], spikeMode := true }
      = .ok ([Metric.httpRequestsTotal "/login" "200",
              Metric.httpRequestDurationMs "/login" "200" (-9131138316486227968)],
          { opts := { mainOpts with
              LatencyMin := 4611686018427387904, LatencyP50 := 4611686018427387905,
              LatencyP90 := 4611686018427387906, LatencyP99 := 4611686018427387907,
              LatencyMax := 4611686018427387908, LatencyUncertainty := 1 },
            rng := { raw := (Rng.ofList [50, 0, 0, 0, 92233720368547757]).raw, pos := 5 },
            spikeMode := true }) ∧
    (-9131138316486227968 : Int) ≠ 2 * 4657802878611661782 ∧
    simulateActivity.request
        { opts := { mainOpts with
              LatencyMin := 4611686018427387904, LatencyP50 := 4611686018427387905,
              LatencyP90 := 4611686018427387906, LatencyP99 := 4611686018427387907,
              LatencyMax := 4611686018427387908, LatencyUncertainty := 1 },
          rng := Rng.ofList [50, 0, 0, 0, 92233720368547757], spikeMode := false }
      = .ok ([Metric.httpRequestsTotal "/login" "200",
              Metric.httpRequestDurationMs "/login" "200" 4657802878611661824],
          { opts := { mainOpts with
              LatencyMin := 4611686018427387904, LatencyP50 := 4611686018427387905,
              LatencyP90 := 4611686018427387906, LatencyP99 := 4611686018427387907,
              LatencyMax := 4611686018427387908, LatencyUncertainty := 1 },
            rng := { raw := (Rng.ofList [50, 0, 0, 0, 92233720368547757]).raw, pos := 5 },
            spikeMode := false }) ∧
    (4657802878611661824 : Int) ≠ 4657802878611661782 :=
  ⟨rfl, rfl, by decide, rfl, by decide⟩

/-- C13, amended: for a request whose status, endpoint and latency samplers
succeed with status `statusCode` (any status, any band) and a `giveLatency` value
`latency` below `2^52` in magnitude (so that the doubling in `int` and the
conversion to a double are exact), the latency observed is `2 * latency` when
the spike flag is set and `latency` when it is not; on the same draws with the
flag forced to true the observation is exactly `2 * latency`, and with the flag
forced to false exactly `latency`. -/
theorem spike_doubles_observed_latency (s s1 s2 s3 : Simulator)
    (statusCode endpoint : String) (latency : Int)
    (hst : giveStatusCode s = .ok (statusCode, s1))
    (hep : giveEndpoint s1 = .ok (endpoint, s2))
    (hlat : giveLatency s2 statusCode = .ok (latency, s3))
    (hlo : -4503599627370496 < latency) (hhi : latency < 4503599627370496) :
    simulateActivity.latency s2 statusCode
      = .ok (if s.spikeMode then 2 * latency else latency, s3) ∧
    simulateActivity.request s
      = .ok ([Metric.httpRequestsTotal endpoint statusCode,
              Metric.httpRequestDurationMs endpoint statusCode
                (if s.spikeMode then 2 * latency else latency)], s3) ∧
    simulateActivity.request { s with spikeMode := true }
      = .ok ([Metric.httpRequestsTotal endpoint statusCode,
              Metric.httpRequestDurationMs endpoint statusCode (2 * latency)],
             { s3 with spikeMode := true }) ∧
    simulateActivity.request { s with spikeMode := false }
      = .ok ([Metric.httpRequestsTotal endpoint statusCode,
              Metric.httpRequestDurationMs endpoint statusCode latency],
             { s3 with spikeMode := false }) := by
  have hflag : s3.spikeMode = s.spikeMode := by
    rw [giveLatency_frame hlat, giveEndpoint_frame hep, giveStatusCode_frame hst]
  have hdouble : int64 (latency * 2) = 2 * latency := by
    rw [mul_comm]
    apply int64_of_range
    · unfold minInt64
      omega
    · unfold maxInt64
      omega
  have hobs : ∀ b : Bool,
      float64 (if b then int64 (latency * 2) else latency)
        = (if b then 2 * latency else latency) := by
    intro b
    cases b
    · exact float64_of_small (by omega) (by omega)
    · simp only [if_true, hdouble]
      exact float64_of_small (by omega) (by omega)
  have hsteps : ∀ b : Bool,
      simulateActivity.request { s with spikeMode := b }
        = .ok ([Metric.httpRequestsTotal endpoint statusCode,
                Metric.httpRequestDurationMs endpoint statusCode
                  (if b then 2 * latency else latency)], { s3 with spikeMode := b }) := by
    intro b
    have h1 := giveStatusCode_spikeMode s b
    rw [hst] at h1
    have h2 := giveEndpoint_spikeMode s1 b
    rw [hep] at h2
    have h3 := giveLatency_spikeMode s2 b statusCode
    rw [hlat] at h3
    rw [simulateActivity.request_of_steps h1 h2 h3]
    exact congrArg (fun v => Except.ok ([Metric.httpRequestsTotal endpoint statusCode,
      Metric.httpRequestDurationMs endpoint statusCode v], { s3 with spikeMode := b }))
      (hobs b)
  refine ⟨?_, ?_, ?_, ?_⟩
  · simp only [simulateActivity.latency, hlat, hflag]
    cases s.spikeMode <;> simp [hdouble]
  · rw [simulateActivity.request_of_steps hst hep hlat, hobs]
  · rw [hsteps true]
    rfl
  · rw [hsteps false]
    rfl

/-- Witness of C13: the simulator of `cmd/main.go` on the draws 50 (status "200"),
8 (endpoint "/users"), `p = 60`, `r = 75`, `d = 5` (latency 35). -/
theorem spike_doubles_observed_latency_witness :
    (giveStatusCode (mainSimulator [50, 8, 60, 200, 5])
        = .ok ("200", { mainSimulator [50, 8, 60, 200, 5] with
            rng := { raw := (Rng.ofList [50, 8, 60, 200, 5]).raw, pos := 1 } }) ∧
      giveEndpoint { mainSimulator [50, 8, 60, 200, 5] with
            rng := { raw := (Rng.ofList [50, 8, 60, 200, 5]).raw, pos := 1 } }
        = .ok ("/users", { mainSimulator [50, 8, 60, 200, 5] with
            rng := { raw := (Rng.ofList [50, 8, 60, 200, 5]).raw, pos := 2 } }) ∧
      giveLatency { mainSimulator [50, 8, 60, 200, 5] with
            rng := { raw := (Rng.ofList [50, 8, 60, 200, 5]).raw, pos := 2 } } "200"
        = .ok (35, { mainSimulator [50, 8, 60, 200, 5] with
            rng := { raw := (Rng.ofList [50, 8, 60, 200, 5]).raw, pos := 5 } }) ∧
      (-4503599627370496 : Int) < 35 ∧ (35 : Int) < 4503599627370496) ∧
    simulateActivity.request { mainSimulator [50, 8, 60, 200, 5] with spikeMode := true }
      = .ok ([Metric.httpRequestsTotal "/users" "200",
              Metric.httpRequestDurationMs "/users" "200" (2 * 35)],
             { opts := mainOpts,
               rng := { raw := (Rng.ofList [50, 8, 60, 200, 5]).raw, pos := 5 },
               spikeMode := true }) :=
  ⟨⟨rfl, rfl, rfl, by decide, by decide⟩,
   (spike_doubles_observed_latency (mainSimulator [50, 8, 60, 200, 5]) _ _ _
      "200" "/users" 35 rfl rfl rfl (by decide) (by decide)).2.2.1⟩

/-! ## Endpoint selection: theorems -/

/-- C14: for a non-empty endpoint sequence the draw `Intn(len)` succeeds with an
index `i` of `[0, len)`, and `giveEndpoint` returns the element at index `i` as
it is; so the result is a member of the sequence, and with a one-element
sequence it is that element. -/
theorem giveEndpoint_selects (s : Simulator) (hne : s.opts.Endpoints ≠ []) :
    ∃ i r1 endpoint,
      s.rng.Intn (s.opts.Endpoints.length : Int) = .ok (i, r1) ∧
      (0 ≤ i ∧ i < (s.opts.Endpoints.length : Int)) ∧
      s.opts.Endpoints[i.toNat]? = some endpoint ∧
      giveEndpoint s = .ok (endpoint, { s with rng := r1 }) ∧
      endpoint ∈ s.opts.Endpoints ∧
      (∀ a, s.opts.Endpoints = [a] → endpoint = a) := by
  have hlen : (0 : Int) < (s.opts.Endpoints.length : Int) :=
    Int.ofNat_lt.mpr (List.length_pos.mpr hne)
  have hdraw := Rng.Intn_of_pos s.rng hlen
  obtain ⟨-, hi0, hilt, -⟩ := Rng.Intn_ok hdraw
  have hidx : ((s.rng.raw s.rng.pos : Int) % (s.opts.Endpoints.length : Int)).toNat
      < s.opts.Endpoints.length := (Int.toNat_lt hi0).mpr hilt
  obtain ⟨endpoint, hget⟩ : ∃ endpoint, s.opts.Endpoints[
      ((s.rng.raw s.rng.pos : Int) % (s.opts.Endpoints.length : Int)).toNat]? = some endpoint :=
    ⟨_, List.getElem?_eq_getElem hidx⟩
  have hmem := List.getElem?_mem hget
  refine ⟨_, _, endpoint, hdraw, ⟨hi0, hilt⟩, hget, ?_, hmem, ?_⟩
  · simp only [giveEndpoint, hdraw, hget]
  · intro a ha
    rw [ha] at hmem
    exact List.mem_singleton.mp hmem

/-- Witness of C14: the seventeen endpoints of `cmd/main.go`. -/
theorem giveEndpoint_selects_witness :
    (mainSimulator [8]).opts.Endpoints ≠ [] ∧
    ∃ i r1 endpoint,
      (mainSimulator [8]).rng.Intn ((mainSimulator [8]).opts.Endpoints.length : Int)
        = .ok (i, r1) ∧
      (0 ≤ i ∧ i < ((mainSimulator [8]).opts.Endpoints.length : Int)) ∧
      (mainSimulator [8]).opts.Endpoints[i.toNat]? = some endpoint ∧
      giveEndpoint (mainSimulator [8]) = .ok (endpoint, { mainSimulator [8] with rng := r1 }) ∧
      endpoint ∈ (mainSimulator [8]).opts.Endpoints ∧
      (∀ a, (mainSimulator [8]).opts.Endpoints = [a] → endpoint = a) :=
  ⟨by decide, giveEndpoint_selects (mainSimulator [8]) (by decide)⟩

/-! ## The tick: theorems -/

/-- The rate phase of a tick always succeeds and leaves the configuration as it
was; for `RequestRate = 0` the rate is 0 whatever the spike decision. -/
theorem simulateActivity.requestRate_total (s : Simulator) :
    ∃ rate s1, simulateActivity.requestRate s = .ok (rate, s1) ∧ s1.opts = s.opts ∧
      (s.opts.RequestRate = 0 → rate = 0) := by
  have h10 : (0 : Int) < 10 := by norm_num
  have h100 : (0 : Int) < 100 := by norm_num
  have hspike : ∃ b s0, giveSpikeMode s = .ok (b, s0) ∧ s0.opts = s.opts := by
    unfold giveSpikeMode
    rw [Rng.Intn_of_pos _ h100]
    dsimp only
    split_ifs <;> exact ⟨_, _, rfl, rfl⟩
  obtain ⟨b, s0, hb, hopts⟩ := hspike
  cases b
  · exact ⟨s.opts.RequestRate, s0, by simp [simulateActivity.requestRate, hb], hopts,
      fun h => h⟩
  · refine ⟨int64 (s.opts.RequestRate * int64 (5 + (s0.rng.raw s0.rng.pos : Int) % 10)),
      { s0 with rng := { s0.rng with pos := s0.rng.pos + 1 } },
      by simp [simulateActivity.requestRate, hb, Rng.Intn_of_pos _ h10], hopts, ?_⟩
    intro h
    rw [h, Int.zero_mul]
    rfl

/-- C15 (the code on the scenario): with the configuration of the end-to-end
scenario, for every random source, previous spike flag and value of the two
spike chances, the tick panics in `Intn(0)` when it jitters the request rate
(`10 * 0 / 50 = 0`) and records nothing, where the claim has it record
10 observations. -/
theorem endToEnd_scenario_panics (spikeStartChance spikeEndChance : Int) (rng : Rng)
    (spike : Bool) :
    simulateActivity
        { opts := endToEndOpts spikeStartChance spikeEndChance, rng := rng, spikeMode := spike }
      = .error .invalidArgumentToIntn := by
  have hj : ∀ t : Simulator, giveWithUncertainty t 10 0 = .error .invalidArgumentToIntn :=
    fun t => giveWithUncertainty_of_empty_range t (by simp [int64])
  simp [simulateActivity, simulateActivity.requestRate, giveSpikeMode, endToEndOpts, OFF, ON, hj]

/-- C16 (the code on valid configurations): the configuration of `cmd/main.go`
with `RequestRate = 0` satisfies the data model, and on it the tick panics for
every random source (the jitter of the rate calls `Intn(0)`); the configuration
with `RequestRate = 2`, `RequestRateUncertainty = 100` and the equal milestones
`LatencyMin = LatencyP50 = 25` satisfies the data model too, and on the draws
1, 50, 0, 0 the tick panics in the band draw `Intn(25 - 25)`. -/
theorem tick_panics_on_valid_configuration (rng : Rng) (spike : Bool) :
    (SimulatorOpts.satisfiesDataModel { mainOpts with RequestRate := 0 } ∧
      simulateActivity
          { opts := { mainOpts with RequestRate := 0 }, rng := rng, spikeMode := spike }
        = .error .invalidArgumentToIntn) ∧
    (SimulatorOpts.satisfiesDataModel
        { mainOpts with RequestRate := 2, RequestRateUncertainty := 100, LatencyMin := 25 } ∧
      simulateActivity
          { opts := { mainOpts with
              RequestRate := 2, RequestRateUncertainty := 100, LatencyMin := 25 },
            rng := Rng.ofList [1, 50, 0, 0], spikeMode := spike }
        = .error .invalidArgumentToIntn) := by
  refine ⟨⟨by decide, ?_⟩, ⟨by decide, ?_⟩⟩
  · obtain ⟨rate, s1, hk, -, hzero⟩ := simulateActivity.requestRate_total
      { opts := { mainOpts with RequestRate := 0 }, rng := rng, spikeMode := spike }
    rw [hzero rfl] at hk
    have hj := @giveWithUncertainty_of_empty_range s1 0 s1.opts.RequestRateUncertainty
      (by simp [int64])
    simp only [simulateActivity, hk, hj]
  · cases spike <;> rfl

/-- A loop of `k` iterations that completes has recorded the calls of `k`
synthetic requests. -/
theorem simulateActivity.loop_ok (k : Nat) :
    ∀ (s s1 : Simulator) (out : List Metric), simulateActivity.loop k s = .ok (out, s1) →
      ∃ reqs : List (String × String × Int), reqs.length = k ∧ out = Metric.ofRequests reqs := by
  induction k with
  | zero =>
    intro s s1 out h
    simp only [simulateActivity.loop, Except.ok.injEq, Prod.mk.injEq] at h
    exact ⟨[], rfl, h.1.symm⟩
  | succ k ih =>
    intro s s1 out h
    rcases hreq : simulateActivity.request s with e | ⟨first, s2⟩
    · simp [simulateActivity.loop, hreq] at h
    rcases hrest : simulateActivity.loop k s2 with e | ⟨rest, s3⟩
    · simp [simulateActivity.loop, hreq, hrest] at h
    simp only [simulateActivity.loop, hreq, hrest, Except.ok.injEq, Prod.mk.injEq] at h
    obtain ⟨statusCode, -, endpoint, -, latency, -, -, -, hfirst⟩ :=
      simulateActivity.request_ok hreq
    obtain ⟨reqs, hlen, hout⟩ := ih s2 s3 rest hrest
    refine ⟨(endpoint, statusCode,
      float64 (if s.spikeMode then int64 (latency * 2) else latency)) :: reqs,
      by simp [hlen], ?_⟩
    rw [← h.1, hfirst, hout]
    rfl

/-- Among the calls of `n` synthetic requests there are `n` increments. -/
theorem Metric.countP_isIncrement_ofRequests (reqs : List (String × String × Int)) :
    (Metric.ofRequests reqs).countP Metric.isIncrement = reqs.length := by
  induction reqs with
  | nil => rfl
  | cons r rest ih =>
    obtain ⟨endpoint, status, latency⟩ := r
    simp [Metric.ofRequests, Metric.isIncrement, List.countP_cons, ih]

/-- Among the calls of `n` synthetic requests there are `n` observations. -/
theorem Metric.countP_isObservation_ofRequests (reqs : List (String × String × Int)) :
    (Metric.ofRequests reqs).countP Metric.isObservation = reqs.length := by
  induction reqs with
  | nil => rfl
  | cons r rest ih =>
    obtain ⟨endpoint, status, latency⟩ := r
    simp [Metric.ofRequests, Metric.isObservation, List.countP_cons, ih]

/-- C20: when a tick completes, with `c` the jittered request count it computed,
the calls it recorded are those of `max c 0` synthetic requests: for each request
one counter increment followed by one histogram observation under the same
`(endpoint, status)` labels; so there are exactly `max c 0` increments and
`max c 0` observations, and nothing is recorded when `c <= 0`. -/
theorem tick_observation_count (s s1 : Simulator) (out : List Metric)
    (h : simulateActivity s = .ok (out, s1)) :
    ∃ (requestRate c : Int) (s2 s3 : Simulator),
      simulateActivity.requestRate s = .ok (requestRate, s2) ∧
      giveWithUncertainty s2 requestRate s2.opts.RequestRateUncertainty = .ok (c, s3) ∧
      ∃ reqs : List (String × String × Int),
        (reqs.length : Int) = max c 0 ∧
        out = Metric.ofRequests reqs ∧
        (out.countP Metric.isIncrement : Int) = max c 0 ∧
        (out.countP Metric.isObservation : Int) = max c 0 ∧
        (c ≤ 0 → out = []) := by
  rcases hrate : simulateActivity.requestRate s with e | ⟨requestRate, s2⟩
  · simp [simulateActivity, hrate] at h
  rcases hcount : giveWithUncertainty s2 requestRate s2.opts.RequestRateUncertainty
    with e | ⟨c, s3⟩
  · simp [simulateActivity, hrate, hcount] at h
  simp only [simulateActivity, hrate, hcount] at h
  obtain ⟨reqs, hlen, hout⟩ := simulateActivity.loop_ok _ _ _ _ h
  have hmax : (reqs.length : Int) = max c 0 := by
    rw [hlen]
    exact Int.toNat_eq_max c
  refine ⟨requestRate, c, s2, s3, rfl, hcount, reqs, hmax, hout, ?_, ?_, ?_⟩
  · rw [hout, Metric.countP_isIncrement_ofRequests, hmax]
  · rw [hout, Metric.countP_isObservation_ofRequests, hmax]
  · intro hc
    have hzero : reqs.length = 0 := by
      rw [hlen]
      exact Int.toNat_eq_zero.mpr hc
    rw [hout, List.length_eq_zero.mp hzero]
    rfl

/-- Witness of C20: the configuration of `cmd/main.go` with `RequestRate = 2` and
`RequestRateUncertainty = 100`, on the draws 1 (request count 1), 50 (status
"200"), 8 (endpoint "/users"), `p = 60`, `r = 75`, `d = 5` (latency 35). -/
theorem tick_observation_count_witness :
    simulateActivity
        (UpdateOpts (mainSimulator [1, 50, 8, 60, 200, 5])
          { mainOpts with RequestRate := 2, RequestRateUncertainty := 100 })
      = .ok ([Metric.httpRequestsTotal "/users" "200",
              Metric.httpRequestDurationMs "/users" "200" 35],
             { opts := { mainOpts with RequestRate := 2, RequestRateUncertainty := 100 },
               rng := { raw := (Rng.ofList [1, 50, 8, 60, 200, 5]).raw, pos := 6 },
               spikeMode := false }) ∧
    ∃ (requestRate c : Int) (s2 s3 : Simulator),
      simulateActivity.requestRate
          (UpdateOpts (mainSimulator [1, 50, 8, 60, 200, 5])
            { mainOpts with RequestRate := 2, RequestRateUncertainty := 100 })
        = .ok (requestRate, s2) ∧
      giveWithUncertainty s2 requestRate s2.opts.RequestRateUncertainty = .ok (c, s3) ∧
      ∃ reqs : List (String × String × Int),
        (reqs.length : Int) = max c 0 ∧
        [Metric.httpRequestsTotal "/users" "200",
          Metric.httpRequestDurationMs "/users" "200" 35] = Metric.ofRequests reqs ∧
        (([Metric.httpRequestsTotal "/users" "200",
            Metric.httpRequestDurationMs "/users" "200" 35].countP Metric.isIncrement : Nat) : Int)
          = max c 0 ∧
        (([Metric.httpRequestsTotal "/users" "200",
            Metric.httpRequestDurationMs "/users" "200" 35].countP Metric.isObservation : Nat) : Int)
          = max c 0 ∧
        (c ≤ 0 → [Metric.httpRequestsTotal "/users" "200",
          Metric.httpRequestDurationMs "/users" "200" 35] = []) :=
  ⟨rfl, tick_observation_count _ _ _ rfl⟩

end PromHttpSimulator
